import Mathlib

/-!
# Verification of the procedural world-generation core of `the-oracle`

This file is a shallow embedding, in Lean 4, of the deterministic
world-generation pipeline of the repository (seeded hashing / value noise /
biome classification and blending / per-profile height synthesis / structure
placement), together with proofs and refutations of the specification claims.

Modelling conventions:

* JavaScript numbers are idealised as exact real (or rational) arithmetic,
  except inside `hash2D`, where every intermediate value is an integer and the
  64-bit-double rounding of those integers is modelled exactly
  (`rnd53` below): there the rounding is total — it decides whether the hash
  collapses — so it cannot be idealised away.  The model was cross-validated
  against actual IEEE-754 double arithmetic on tens of thousands of inputs.
* `worldConfig.json` is not part of the sources; every function that reads it
  takes a `WorldConfig` record as an explicit parameter (see `WorldConfig`,
  modelled from the spec's description of the configuration schema).
* Fallible lookups (biome registry access that would throw in JS) are
  modelled with `Option`.
-/

set_option maxHeartbeats 4000000
set_option maxRecDepth 100000

namespace Oracle

/-! ## Exact model of JavaScript number primitives used by `hash2D`

`hash2D` (src/util/hash.js) performs `<<`, `^` and `&` (which act on 32-bit
integers via ToInt32/ToUint32) interleaved with double multiplications and
additions of integer-valued doubles.  All intermediate values are integers,
so double rounding is exactly the function `rnd53` (round to 53 significant
bits, ties to even). -/

/-- ToUint32: the 32-bit unsigned residue of an integer. -/
def toUint32 (z : ℤ) : ℤ := z % 4294967296

/-- ToInt32: the 32-bit two's-complement reinterpretation of an integer. -/
def toInt32 (z : ℤ) : ℤ := (z + 2147483648) % 4294967296 - 2147483648

/-- Number of binary digits of `n`, with structural fuel so that the kernel
can evaluate it (`Nat.log2` is well-founded recursion and does not reduce).
`fuel = 200` below covers every integer a 107-bit mixing product can reach. -/
def natBits (fuel : ℕ) (n : ℕ) : ℕ :=
  match fuel with
  | 0 => 0
  | f + 1 => if n = 0 then 0 else natBits f (n / 2) + 1

/-- Round a natural number to 53 significant bits, ties to even — exactly the
value a 64-bit IEEE double stores for an integer of this magnitude. -/
def rnd53Nat (n : ℕ) : ℕ :=
  if n < 9007199254740992 then n
  else
    let e := natBits 200 n - 53
    let q := n / 2 ^ e
    let r := n % 2 ^ e
    let half := 2 ^ (e - 1)
    if r < half then q * 2 ^ e
    else if half < r then (q + 1) * 2 ^ e
    else if q % 2 = 0 then q * 2 ^ e else (q + 1) * 2 ^ e

/-- Round an integer to the nearest representable double (rounding is
symmetric about zero). -/
def rnd53 (z : ℤ) : ℤ :=
  if z < 0 then -(rnd53Nat z.natAbs : ℤ) else (rnd53Nat z.natAbs : ℤ)

/-- Bitwise xor of two int32 values (JS `^`). -/
def int32Xor (a b : ℤ) : ℤ :=
  toInt32 (((toUint32 a).toNat ^^^ (toUint32 b).toNat : ℕ) : ℤ)

/-- JS `<<  13` on an int32 value. -/
def shl13 (t : ℤ) : ℤ := toInt32 (toUint32 t * 8192)

/-- The final masking and normalisation step of `hash2D`:
`1.0 - ((… ) & 0x7fffffff) / 1073741824.0` applied to the (rounded) mixing
result `t5`. -/
def hashFinal (t5 : ℤ) : ℚ :=
  1 - ((toUint32 t5 % 2147483648 : ℤ) : ℚ) / 1073741824

/-- The integer mixing pipeline of `hash2D`: everything up to (and including)
the rounded value of `n * (n * n * 15731 + 789221) + 1376312589`. -/
def hashT5 (x z : ℤ) : ℤ :=
  let a := rnd53 (rnd53 x * 1619)
  let b := rnd53 (rnd53 z * 31337)
  let n0 := rnd53 (a + b)
  let t := toInt32 n0
  let n := int32Xor (shl13 t) t
  let t1 := rnd53 (n * n)
  let t2 := rnd53 (t1 * 15731)
  let t3 := rnd53 (t2 + 789221)
  let t4 := rnd53 (n * t3)
  rnd53 (t4 + 1376312589)

/-- `hash2D` from src/util/hash.js, for integer arguments, with the exact
64-bit-double behaviour of every arithmetic step.  The JS source is
`let n = x * 1619 + z * 31337; n = (n << 13) ^ n;` followed by
`1.0 - ((n * (n * n * 15731 + 789221) + 1376312589) & 0x7fffffff) / 1073741824.0`.
The products `n * n * 15731` and the outer `n * (…)` exceed 2^53 for almost
every input, so the low bits that the mask depends on are rounded away. -/
def hash2D (x z : ℤ) : ℚ :=
  hashFinal (hashT5 x z)

/-- Evaluation principle: a kernel-checkable integer computation of the masked
31-bit value determines the rational hash output. -/
theorem hash2D_eq_of (x z i : ℤ)
    (h : toUint32 (hashT5 x z) % 2147483648 = i) :
    hash2D x z = 1 - (i : ℚ) / 1073741824 := by
  unfold hash2D hashFinal
  rw [h]

theorem hashFinal_le_one (m : ℤ) : hashFinal m ≤ 1 := by
  unfold hashFinal
  have hm : (0 : ℤ) ≤ toUint32 m % 2147483648 :=
    Int.emod_nonneg _ (by norm_num)
  have : (0 : ℚ) ≤ ((toUint32 m % 2147483648 : ℤ) : ℚ) / 1073741824 := by
    apply div_nonneg _ (by norm_num)
    exact_mod_cast hm
  linarith

theorem neg_one_lt_hashFinal (m : ℤ) : -1 < hashFinal m := by
  unfold hashFinal
  have hlt : toUint32 m % 2147483648 < 2147483648 :=
    Int.emod_lt_of_pos _ (by norm_num)
  have h1 : ((toUint32 m % 2147483648 : ℤ) : ℚ) < 2147483648 := by
    exact_mod_cast hlt
  have h2 : ((toUint32 m % 2147483648 : ℤ) : ℚ) / 1073741824 < 2 := by
    rw [div_lt_iff₀ (by norm_num : (0:ℚ) < 1073741824)]
    linarith
  linarith

/-- `hash2D` always lies in the half-open interval (-1, 1]. -/
theorem hash2D_le_one (x z : ℤ) : hash2D x z ≤ 1 := hashFinal_le_one _

theorem neg_one_lt_hash2D (x z : ℤ) : -1 < hash2D x z := neg_one_lt_hashFinal _

theorem abs_hash2D_le_one (x z : ℤ) : |hash2D x z| ≤ 1 :=
  abs_le.mpr ⟨le_of_lt (neg_one_lt_hash2D x z), hash2D_le_one x z⟩

/-- Convenience: proving the masked value is zero shows the hash collapsed to
exactly 1.0 at that input. -/
theorem hash2D_eq_one_of (x z : ℤ)
    (h : toUint32 (hashT5 x z) % 2147483648 = 0) : hash2D x z = 1 := by
  rw [hash2D_eq_of x z 0 h]; norm_num

/-! ## Value noise (`noise2D`, src/util/hash.js) over idealised reals -/

noncomputable section

/-- `hash2D` seen as a real number (the JS double is exactly this rational). -/
def hash2DR (x z : ℤ) : ℝ := ((hash2D x z : ℚ) : ℝ)

theorem hash2DR_eq_one {x z : ℤ} (h : hash2D x z = 1) : hash2DR x z = 1 := by
  rw [hash2DR, h]; norm_num

theorem abs_hash2DR_le_one (x z : ℤ) : |hash2DR x z| ≤ 1 := by
  rw [hash2DR, ← Rat.cast_abs]
  exact_mod_cast abs_hash2D_le_one x z

/-- `lerp` from src/util/hash.js. -/
def lerp (a b t : ℝ) : ℝ := a + (b - a) * t

/-- `smoothstep` from src/util/hash.js. -/
def smoothstep (t : ℝ) : ℝ := t * t * (3 - 2 * t)

/-- `noise2D` from src/util/hash.js: smoothstep-weighted bilinear
interpolation of `hash2D` at the four surrounding lattice points. -/
def noise2D (x z : ℝ) : ℝ :=
  let xi : ℤ := ⌊x⌋
  let zi : ℤ := ⌊z⌋
  let xf : ℝ := x - xi
  let zf : ℝ := z - zi
  let u := smoothstep xf
  let v := smoothstep zf
  let aa := hash2DR xi zi
  let ba := hash2DR (xi + 1) zi
  let ab := hash2DR xi (zi + 1)
  let bb := hash2DR (xi + 1) (zi + 1)
  lerp (lerp aa ba u) (lerp ab bb u) v

theorem noise2D_eval (x z : ℝ) (xi zi : ℤ) (hx : ⌊x⌋ = xi) (hz : ⌊z⌋ = zi) :
    noise2D x z =
      lerp (lerp (hash2DR xi zi) (hash2DR (xi + 1) zi) (smoothstep (x - xi)))
        (lerp (hash2DR xi (zi + 1)) (hash2DR (xi + 1) (zi + 1))
          (smoothstep (x - xi)))
        (smoothstep (z - zi)) := by
  simp only [noise2D, hx, hz]

/-- If all four surrounding hashes collapsed to 1.0 the interpolation is
exactly 1.0 whatever the fractional position. -/
theorem noise2D_eq_one (x z : ℝ) (xi zi : ℤ) (hx : ⌊x⌋ = xi) (hz : ⌊z⌋ = zi)
    (h1 : hash2D xi zi = 1) (h2 : hash2D (xi + 1) zi = 1)
    (h3 : hash2D xi (zi + 1) = 1) (h4 : hash2D (xi + 1) (zi + 1) = 1) :
    noise2D x z = 1 := by
  rw [noise2D_eval x z xi zi hx hz, hash2DR_eq_one h1, hash2DR_eq_one h2,
    hash2DR_eq_one h3, hash2DR_eq_one h4]
  unfold lerp; ring

theorem noise2D_int (a b : ℤ) : noise2D (a : ℝ) (b : ℝ) = hash2DR a b := by
  rw [noise2D_eval (a : ℝ) (b : ℝ) a b (by simp) (by simp)]
  simp [smoothstep, lerp]

/-! Basic bounds used throughout: the noise value is a convex-ish combination
of hash values, hence bounded by 1 in absolute value. -/

theorem smoothstep_nonneg {t : ℝ} (_h0 : 0 ≤ t) (h1 : t ≤ 1) :
    0 ≤ smoothstep t := by
  unfold smoothstep; nlinarith

theorem smoothstep_le_one {t : ℝ} (h0 : 0 ≤ t) (h1 : t ≤ 1) :
    smoothstep t ≤ 1 := by
  unfold smoothstep
  nlinarith [mul_nonneg (mul_nonneg (sub_nonneg.mpr h1) (sub_nonneg.mpr h1))
    (by linarith : (0:ℝ) ≤ 1 + 2 * t)]

theorem smoothstep_le_three_sq {t : ℝ} (h0 : 0 ≤ t) :
    smoothstep t ≤ 3 * t ^ 2 := by
  unfold smoothstep; nlinarith

theorem one_sub_smoothstep (t : ℝ) : 1 - smoothstep (1 - t) = smoothstep t := by
  unfold smoothstep; ring

theorem abs_lerp_le {a b t : ℝ} (ha : |a| ≤ 1) (hb : |b| ≤ 1)
    (h0 : 0 ≤ t) (h1 : t ≤ 1) : |lerp a b t| ≤ 1 := by
  unfold lerp
  rw [abs_le] at *
  constructor <;> nlinarith [ha.1, ha.2, hb.1, hb.2]

theorem abs_noise2D_le_one (x z : ℝ) : |noise2D x z| ≤ 1 := by
  rw [noise2D_eval x z ⌊x⌋ ⌊z⌋ rfl rfl]
  have hu0 : 0 ≤ smoothstep (x - ⌊x⌋) :=
    smoothstep_nonneg (Int.fract_nonneg x) (le_of_lt (Int.fract_lt_one x))
  have hu1 : smoothstep (x - ⌊x⌋) ≤ 1 :=
    smoothstep_le_one (Int.fract_nonneg x) (le_of_lt (Int.fract_lt_one x))
  have hv0 : 0 ≤ smoothstep (z - ⌊z⌋) :=
    smoothstep_nonneg (Int.fract_nonneg z) (le_of_lt (Int.fract_lt_one z))
  have hv1 : smoothstep (z - ⌊z⌋) ≤ 1 :=
    smoothstep_le_one (Int.fract_nonneg z) (le_of_lt (Int.fract_lt_one z))
  exact abs_lerp_le
    (abs_lerp_le (abs_hash2DR_le_one _ _) (abs_hash2DR_le_one _ _) hu0 hu1)
    (abs_lerp_le (abs_hash2DR_le_one _ _) (abs_hash2DR_le_one _ _) hu0 hu1)
    hv0 hv1

/-- Distance of the bilinear interpolation from its `u = 0` edge column. -/
theorem lerp2_dist_left {aa ba ab bb u v : ℝ}
    (haa : |aa| ≤ 1) (hba : |ba| ≤ 1) (hab : |ab| ≤ 1) (hbb : |bb| ≤ 1)
    (hv0 : 0 ≤ v) (hv1 : v ≤ 1) (hu0 : 0 ≤ u) :
    |lerp (lerp aa ba u) (lerp ab bb u) v - lerp aa ab v| ≤ 2 * u := by
  unfold lerp
  rw [abs_le] at *
  constructor <;>
    nlinarith [mul_nonneg (mul_nonneg hu0 hv0) (by linarith [hab.1, hbb.2] : (0:ℝ) ≤ bb - ab + 2),
      mul_nonneg (mul_nonneg hu0 hv0) (by linarith [hbb.1, hab.2] : (0:ℝ) ≤ ab - bb + 2),
      mul_nonneg (mul_nonneg hu0 (by linarith : (0:ℝ) ≤ 1 - v)) (by linarith [haa.1, hba.2] : (0:ℝ) ≤ ba - aa + 2),
      mul_nonneg (mul_nonneg hu0 (by linarith : (0:ℝ) ≤ 1 - v)) (by linarith [hba.1, haa.2] : (0:ℝ) ≤ aa - ba + 2)]

/-- Distance of the bilinear interpolation from its `u = 1` edge column. -/
theorem lerp2_dist_right {aa ba ab bb u v : ℝ}
    (haa : |aa| ≤ 1) (hba : |ba| ≤ 1) (hab : |ab| ≤ 1) (hbb : |bb| ≤ 1)
    (hv0 : 0 ≤ v) (hv1 : v ≤ 1) (hu1 : u ≤ 1) :
    |lerp (lerp aa ba u) (lerp ab bb u) v - lerp ba bb v| ≤ 2 * (1 - u) := by
  unfold lerp
  rw [abs_le] at *
  constructor <;>
    nlinarith [mul_nonneg (mul_nonneg (by linarith : (0:ℝ) ≤ 1 - u) hv0) (by linarith [hab.1, hbb.2] : (0:ℝ) ≤ bb - ab + 2),
      mul_nonneg (mul_nonneg (by linarith : (0:ℝ) ≤ 1 - u) hv0) (by linarith [hbb.1, hab.2] : (0:ℝ) ≤ ab - bb + 2),
      mul_nonneg (mul_nonneg (by linarith : (0:ℝ) ≤ 1 - u) (by linarith : (0:ℝ) ≤ 1 - v)) (by linarith [haa.1, hba.2] : (0:ℝ) ≤ ba - aa + 2),
      mul_nonneg (mul_nonneg (by linarith : (0:ℝ) ≤ 1 - u) (by linarith : (0:ℝ) ≤ 1 - v)) (by linarith [hba.1, haa.2] : (0:ℝ) ≤ aa - ba + 2)]

end

/-! ## Claim C2 and Claim C9 -/

/-- **C2** — refuted (code bug).  The spec requires a seeded avalanche hash
that never degrades to a near-constant output; `hash2D` takes no seed at all,
and under the actual double-precision semantics of its mixing arithmetic it
returns exactly `1.0` on virtually every input (here a 3×3 grid plus two
far-away points), because the product `n * (n*n*15731 + 789221)` is ≈2^84 or
larger, gets rounded to a multiple of 2^32, and the 31-bit mask of such a
multiple is 0.  The output is not constant in the strictest sense
(`hash2D 0 0 ≠ 1`), which is what makes it *near*-constant. -/
theorem C2_hash2D_near_constant :
    hash2D 1 0 = 1 ∧ hash2D 2 0 = 1 ∧ hash2D 3 0 = 1 ∧
    hash2D 1 1 = 1 ∧ hash2D 2 1 = 1 ∧ hash2D 3 1 = 1 ∧
    hash2D 1 2 = 1 ∧ hash2D 2 2 = 1 ∧ hash2D 3 2 = 1 ∧
    hash2D 500 700 = 1 ∧ hash2D (-1234) 5678 = 1 ∧ hash2D 0 0 ≠ 1 := by
  refine ⟨hash2D_eq_one_of 1 0 (by decide), hash2D_eq_one_of 2 0 (by decide),
    hash2D_eq_one_of 3 0 (by decide), hash2D_eq_one_of 1 1 (by decide),
    hash2D_eq_one_of 2 1 (by decide), hash2D_eq_one_of 3 1 (by decide),
    hash2D_eq_one_of 1 2 (by decide), hash2D_eq_one_of 2 2 (by decide),
    hash2D_eq_one_of 3 2 (by decide), hash2D_eq_one_of 500 700 (by decide),
    hash2D_eq_one_of (-1234) 5678 (by decide), ?_⟩
  rw [hash2D_eq_of 0 0 1376312589 (by decide)]
  norm_num

/-- Crossing a lattice boundary: the two cells' bilinear interpolations are
within `4u` of each other, via their shared edge column, when the left cell
is sampled at parameter `w` with `1 - w = u`. -/
theorem cross_boundary_bound {a0 b0 c0 a1 b1 c1 u w v : ℝ}
    (ha0 : |a0| ≤ 1) (hb0 : |b0| ≤ 1) (hc0 : |c0| ≤ 1)
    (ha1 : |a1| ≤ 1) (hb1 : |b1| ≤ 1) (hc1 : |c1| ≤ 1)
    (hv0 : 0 ≤ v) (hv1 : v ≤ 1) (hu0 : 0 ≤ u) (hw1 : w ≤ 1)
    (huw : 1 - w = u) :
    |lerp (lerp b0 c0 u) (lerp b1 c1 u) v -
      lerp (lerp a0 b0 w) (lerp a1 b1 w) v| ≤ 4 * u := by
  have h1 := lerp2_dist_left hb0 hc0 hb1 hc1 hv0 hv1 hu0
  have h2 := lerp2_dist_right ha0 hb0 ha1 hb1 hv0 hv1 hw1
  have h3 := abs_sub_le (lerp (lerp b0 c0 u) (lerp b1 c1 u) v)
    (lerp b0 b1 v) (lerp (lerp a0 b0 w) (lerp a1 b1 w) v)
  rw [abs_sub_comm (lerp (lerp a0 b0 w) (lerp a1 b1 w) v) (lerp b0 b1 v)] at h2
  linarith

/-- **C9** — confirmed.  `noise2D` is continuous across integer lattice
boundaries: approaching a lattice line `x = k` from either side, the two
values differ by at most `12·ε²`, a quantity tending to 0 with `ε`.  The two
cells' interpolations agree on the shared edge column because they hash the
same two lattice points there. -/
theorem C9_noise2D_lattice_continuity (k : ℤ) (z ε : ℝ)
    (hε0 : 0 < ε) (hε1 : ε < 1) :
    |noise2D ((k : ℝ) + ε) z - noise2D ((k : ℝ) - ε) z| ≤ 12 * ε ^ 2 := by
  have hfr : ⌊(k : ℝ) + ε⌋ = k := by
    rw [add_comm, Int.floor_add_int]
    have h0 : ⌊ε⌋ = 0 := Int.floor_eq_zero_iff.mpr ⟨le_of_lt hε0, hε1⟩
    omega
  have hfl : ⌊(k : ℝ) - ε⌋ = k - 1 := by
    have h1 : (k : ℝ) - ε = (1 - ε) + ((k - 1 : ℤ) : ℝ) := by push_cast; ring
    rw [h1, Int.floor_add_int]
    have h0 : ⌊(1 : ℝ) - ε⌋ = 0 :=
      Int.floor_eq_zero_iff.mpr ⟨by linarith, by linarith⟩
    omega
  rw [noise2D_eval _ z k ⌊z⌋ hfr rfl, noise2D_eval _ z (k - 1) ⌊z⌋ hfl rfl]
  have hxr : (k : ℝ) + ε - (k : ℤ) = ε := by ring
  have hxl : (k : ℝ) - ε - ((k - 1 : ℤ) : ℝ) = 1 - ε := by push_cast; ring
  rw [hxr, hxl]
  have hkm : hash2DR (k - 1 + 1) = hash2DR k := by norm_num
  rw [hkm]
  have hv0 : 0 ≤ smoothstep (z - ⌊z⌋) :=
    smoothstep_nonneg (Int.fract_nonneg z) (le_of_lt (Int.fract_lt_one z))
  have hv1 : smoothstep (z - ⌊z⌋) ≤ 1 :=
    smoothstep_le_one (Int.fract_nonneg z) (le_of_lt (Int.fract_lt_one z))
  have hu0 : 0 ≤ smoothstep ε := smoothstep_nonneg (le_of_lt hε0) (le_of_lt hε1)
  have hu3 : smoothstep ε ≤ 3 * ε ^ 2 := smoothstep_le_three_sq (le_of_lt hε0)
  have hw1 : smoothstep (1 - ε) ≤ 1 := by
    have := one_sub_smoothstep ε; linarith
  have hmain := cross_boundary_bound
    (abs_hash2DR_le_one (k - 1) ⌊z⌋) (abs_hash2DR_le_one k ⌊z⌋)
    (abs_hash2DR_le_one (k + 1) ⌊z⌋)
    (abs_hash2DR_le_one (k - 1) (⌊z⌋ + 1)) (abs_hash2DR_le_one k (⌊z⌋ + 1))
    (abs_hash2DR_le_one (k + 1) (⌊z⌋ + 1))
    hv0 hv1 hu0 hw1 (one_sub_smoothstep ε)
  linarith

/-- Witness for C9 at `k = 0`, `z = 0`, `ε = 1/2`. -/
theorem C9_noise2D_lattice_continuity_witness :
    (0 : ℝ) < 1/2 ∧ (1/2 : ℝ) < 1 ∧
    |noise2D (((0 : ℤ) : ℝ) + 1/2) 0 - noise2D (((0 : ℤ) : ℝ) - 1/2) 0| ≤
      12 * (1/2 : ℝ) ^ 2 :=
  ⟨by norm_num, by norm_num,
    C9_noise2D_lattice_continuity 0 0 (1/2) (by norm_num) (by norm_num)⟩

/-! ## Biome registry and configuration (src/world/biomes.js)

`worldConfig.json` is referenced by the sources but is not part of them.
Modelled from the spec: the configuration record below carries exactly the
fields the core reads (cell size, transition band, water level, climate
frequencies and bias amplitudes, the optional ruins overlay, the mountain /
river / ice tuning blocks, and the biome registry whose schema §3 of the
spec describes: id, profile tag, base color, optional water color, climate
preference envelope, optional rarity gate, blending scalars and the
structure-weight table).  Every function below takes the configuration as an
explicit parameter. -/

open Classical

structure Color3 where
  r : ℝ
  g : ℝ
  b : ℝ

structure ClimateAxisPref where
  center : ℝ
  width : ℝ
  pow : Option ℝ

structure ClimatePref where
  temp : Option ClimateAxisPref
  moist : Option ClimateAxisPref
  elev : Option ClimateAxisPref

structure RarityGate where
  threshold : Option ℝ
  belowMultiplier : Option ℝ

structure ObjectProbs where
  ruin : ℝ
  spire : ℝ
  crystal : ℝ
  crystal_cluster : ℝ
  monolith : ℝ

structure Biome where
  id : String
  profile : String
  baseColor : Color3
  waterColor : Option Color3
  climatePref : Option ClimatePref
  rarityGate : Option RarityGate
  roughness : Option ℝ
  vertical : Option ℝ
  wetness : Option ℝ
  objectProbabilities : ObjectProbs

structure ClimateCfg where
  tempFreq : ℝ
  moistFreq : ℝ
  elevFreq : ℝ
  biasTempFreq : ℝ
  biasMoistFreq : ℝ
  biasElevFreq : ℝ
  biasTempAmp : ℝ
  biasMoistAmp : ℝ
  biasElevAmp : ℝ
  warpFreq : ℝ
  warpStrength : ℝ

structure OverlayCfg where
  enabled : Bool
  threshold : ℝ
  biomeId : String

structure MountainCfg where
  baseLift : ℝ
  bigAmp : ℝ
  medAmp : ℝ
  cragAmp : ℝ
  hardClamp : ℝ
  softKnee : ℝ

structure RiversCfg where
  riverDepth : ℝ
  ravineDepth : ℝ
  ravineMix : ℝ

structure IceCfg where
  latScale : ℝ
  coldLatWeight : ℝ
  coldNoiseWeight : ℝ
  elevStart : ℝ
  elevRange : ℝ

structure WorldConfig where
  biomeCell : ℝ
  transitionBand : ℝ
  waterLevel : ℝ
  climate : ClimateCfg
  ruinsOverlay : Option OverlayCfg
  mountain : MountainCfg
  rivers : RiversCfg
  ice : IceCfg
  biomes : List Biome

noncomputable section

/-- `clamp01` from src/world/biomes.js / terrain.js. -/
def clamp01 (v : ℝ) : ℝ := max 0 (min 1 v)

/-- `smooth01` from src/world/biomes.js. -/
def smooth01 (t : ℝ) : ℝ := t * t * (3 - 2 * t)

/-- `Biomes[id]` — the id-keyed registry lookup (ids are unique in the
registry, so the JS object built by reduce agrees with `find?`). -/
def biomesGet (cfg : WorldConfig) (id : String) : Option Biome :=
  cfg.biomes.find? (fun b => b.id == id)

/-- `warp` from src/world/biomes.js. -/
def warpPt (cfg : WorldConfig) (x z : ℝ) : ℝ × ℝ :=
  let w1 := noise2D (x * cfg.climate.warpFreq) (z * cfg.climate.warpFreq)
  let w2 := noise2D ((x + 100) * cfg.climate.warpFreq)
    ((z - 100) * cfg.climate.warpFreq)
  (x + w1 * cfg.climate.warpStrength, z - w2 * cfg.climate.warpStrength)

/-- `cellRand01` from src/world/biomes.js. -/
def cellRand01 (cx cz salt : ℤ) : ℝ :=
  clamp01 ((hash2DR (cx * 928371 + salt) (cz * 1231337 - salt) + 1) * 0.5)

/-- `featurePoint` from src/world/biomes.js. -/
def featurePoint (cfg : WorldConfig) (cx cz : ℤ) : ℝ × ℝ :=
  let rx := cellRand01 cx cz 11
  let rz := cellRand01 cx cz 23
  (((cx : ℝ) + 0.15 + rx * 0.70) * cfg.biomeCell,
   ((cz : ℝ) + 0.15 + rz * 0.70) * cfg.biomeCell)

structure Climate where
  temp : ℝ
  moist : ℝ
  elev : ℝ

/-- `climateAt` from src/world/biomes.js. -/
def climateAt (cfg : WorldConfig) (cx cz : ℤ) : Climate :=
  let c := cfg.climate
  let temp := clamp01 ((noise2D ((cx : ℝ) * c.tempFreq + 19.2)
    ((cz : ℝ) * c.tempFreq - 33.1) + 1) * 0.5)
  let moist := clamp01 ((noise2D ((cx : ℝ) * c.moistFreq - 101.7)
    ((cz : ℝ) * c.moistFreq + 88.4) + 1) * 0.5)
  let elev := clamp01 ((noise2D ((cx : ℝ) * c.elevFreq + 11.0)
    ((cz : ℝ) * c.elevFreq + 7.0) + 1) * 0.5)
  let biasT := ((noise2D ((cx : ℝ) * c.biasTempFreq + 200)
    ((cz : ℝ) * c.biasTempFreq - 90) + 1) * 0.5 - 0.5) * c.biasTempAmp
  let biasM := ((noise2D ((cx : ℝ) * c.biasMoistFreq - 40)
    ((cz : ℝ) * c.biasMoistFreq + 140) + 1) * 0.5 - 0.5) * c.biasMoistAmp
  let biasE := ((noise2D ((cx : ℝ) * c.biasElevFreq + 12)
    ((cz : ℝ) * c.biasElevFreq - 12) + 1) * 0.5 - 0.5) * c.biasElevAmp
  { temp := clamp01 (temp + biasT),
    moist := clamp01 (moist + biasM),
    elev := clamp01 (elev + biasE) }

/-- `scoreNear` from src/world/biomes.js. -/
def scoreNear (v center width pw : ℝ) : ℝ :=
  let d := |v - center|
  let s := clamp01 (1 - d / max (1/1000000) width)
  s ^ (max (1/10000) pw)

/-- `biomeScore` from src/world/biomes.js. -/
def biomeScore (b : Biome) (c : Climate) (rPocket : ℝ) : ℝ :=
  let s1 : ℝ :=
    match b.climatePref with
    | none => 1
    | some p =>
        (match p.temp with
          | none => 1
          | some a => scoreNear c.temp a.center a.width (a.pow.getD 1)) *
        ((match p.moist with
          | none => 1
          | some a => scoreNear c.moist a.center a.width (a.pow.getD 1)) *
        (match p.elev with
          | none => 1
          | some a => scoreNear c.elev a.center a.width (a.pow.getD 1)))
  match b.rarityGate with
  | none => s1
  | some g =>
      s1 * (if g.threshold.getD 0.85 < rPocket then 1 else g.belowMultiplier.getD 0.35)

/-- The `continue` condition in the classifier loop: skip the overlay biome
when the overlay is enabled. -/
def skipBiome (cfg : WorldConfig) (b : Biome) : Prop :=
  match cfg.ruinsOverlay with
  | some ov => ov.enabled = true ∧ b.id = ov.biomeId
  | none => False

/-- The scoring loop of `pickTypeForCell` (everything after the overlay
check): maximise jittered score, fall back to the default biome below the
floor `0.08`. -/
def pickTypeCore (cfg : WorldConfig) (c : Climate) (r pocket : ℝ) : String :=
  let jitter := (r - 0.5) * 0.04
  let init : ℝ × String :=
    (-1, (cfg.biomes.head?.map Biome.id).getD "crystalline_plains")
  let res := cfg.biomes.foldl (fun st b =>
    if skipBiome cfg b then st
    else
      let s := biomeScore b c pocket + jitter
      if st.1 < s then (s, b.id) else st) init
  if res.1 < 0.08 then "crystalline_plains" else res.2

/-- `pickTypeForCell` from src/world/biomes.js. -/
def pickTypeForCell (cfg : WorldConfig) (cx cz : ℤ) : String :=
  let c := climateAt cfg cx cz
  let r := cellRand01 cx cz 91
  let pocket := cellRand01 cx cz 777
  match cfg.ruinsOverlay with
  | some ov =>
      if ov.enabled = true ∧ ov.threshold < pocket ∧
          (biomesGet cfg ov.biomeId).isSome
      then ov.biomeId
      else pickTypeCore cfg c r pocket
  | none => pickTypeCore cfg c r pocket

structure Cand where
  type : String
  d2 : ℝ

/-- One step of the best-two scan in `nearestTwoCells`. -/
def scanStep (st : Option Cand × Option Cand) (c : Cand) :
    Option Cand × Option Cand :=
  match st.1 with
  | none => (some c, st.2)
  | some a =>
      if c.d2 < a.d2 then (some c, some a)
      else
        match st.2 with
        | none => (some a, some c)
        | some b => if c.d2 < b.d2 then (some a, some c) else (some a, some b)

/-- The 3×3 neighbourhood scan order of `nearestTwoCells` (`dz` outer,
`dx` inner), as `(dx, dz)` pairs. -/
def neighborOffsets : List (ℤ × ℤ) :=
  [(-1,-1),(0,-1),(1,-1),(-1,0),(0,0),(1,0),(-1,1),(0,1),(1,1)]

/-- `nearestTwoCells` from src/world/biomes.js.  The scan visits 9 cells, so
`bestA` is always set; the final arm is unreachable and only makes the match
total. -/
def nearestTwoCells (cfg : WorldConfig) (x z : ℝ) : Cand × Cand :=
  let w := warpPt cfg x z
  let gx : ℤ := ⌊w.1 / cfg.biomeCell⌋
  let gz : ℤ := ⌊w.2 / cfg.biomeCell⌋
  let cands := neighborOffsets.map (fun d =>
    let cx := gx + d.1
    let cz := gz + d.2
    let p := featurePoint cfg cx cz
    { type := pickTypeForCell cfg cx cz,
      d2 := (w.1 - p.1) * (w.1 - p.1) + (w.2 - p.2) * (w.2 - p.2) : Cand })
  match cands.foldl scanStep (none, none) with
  | (some a, some b) => (a, b)
  | (some a, none) => (a, a)
  | (none, _) => (⟨"crystalline_plains", 0⟩, ⟨"crystalline_plains", 0⟩)

/-- `Biomes[t] ?? Biomes["crystalline_plains"]` — how `getBiomeWeights`
resolves a cell's biome id, falling back to the default biome. -/
def resolveBiome (cfg : WorldConfig) (t : String) : Option Biome :=
  (biomesGet cfg t).orElse (fun _ => biomesGet cfg "crystalline_plains")

/-- `getBiomeWeights` from src/world/biomes.js.  `none` models the JS
TypeError that would occur when both the cell's biome id and the default
biome are missing from the registry. -/
def getBiomeWeights (cfg : WorldConfig) (x z : ℝ) :
    Option (List (Biome × ℝ)) :=
  let ab := nearestTwoCells cfg x z
  match resolveBiome cfg ab.1.type, resolveBiome cfg ab.2.type with
  | some biomeA, some biomeB =>
      if biomeA.id = biomeB.id then some [(biomeA, 1)]
      else
        let d0 := Real.sqrt ab.1.d2
        let d1 := Real.sqrt ab.2.d2
        let edge := clamp01 ((d1 - d0) / (cfg.biomeCell * 0.55))
        let t := smooth01 (clamp01 ((edge - cfg.transitionBand) /
          (1.0 - cfg.transitionBand)))
        let wA := clamp01 (0.06 + 0.94 * t)
        let wB := 1.0 - wA
        some [(biomeA, wA), (biomeB, wB)]
  | _, _ => none

/-- The normalised edge distance computed inside the two-entry branch of
`getBiomeWeights` (the local `edge`). -/
def edgeDist (cfg : WorldConfig) (x z : ℝ) : ℝ :=
  let ab := nearestTwoCells cfg x z
  clamp01 ((Real.sqrt ab.2.d2 - Real.sqrt ab.1.d2) / (cfg.biomeCell * 0.55))

structure BiomeMix where
  dominant : Biome
  weights : List (Biome × ℝ)
  baseColor : Color3

/-- `getBiomeMixAt` from src/world/biomes.js (the scalar roughness /
vertical / wetness outputs are omitted: no embedded consumer reads them —
`getHeightRaw` re-reads `vertical` from the weight list itself). -/
def getBiomeMixAt (cfg : WorldConfig) (x z : ℝ) : Option BiomeMix :=
  (getBiomeWeights cfg x z).bind (fun ws =>
    match ws with
    | [] => none
    | w0 :: _ =>
        if ws.length = 1 then
          some { dominant := w0.1, weights := ws, baseColor := w0.1.baseColor }
        else
          let dom := ws.foldl (fun d it => if d.2 < it.2 then it else d) w0
          let r := ws.foldl (fun acc it => acc + it.1.baseColor.r * it.2) 0
          let g := ws.foldl (fun acc it => acc + it.1.baseColor.g * it.2) 0
          let b := ws.foldl (fun acc it => acc + it.1.baseColor.b * it.2) 0
          some { dominant := dom.1, weights := ws,
                 baseColor := ⟨clamp01 r, clamp01 g, clamp01 b⟩ })

/-- `getBiomeAt` from src/world/biomes.js. -/
def getBiomeAt (cfg : WorldConfig) (x z : ℝ) : Option Biome :=
  (getBiomeMixAt cfg x z).map BiomeMix.dominant

/-- `getBiomeColor` from src/world/biomes.js. -/
def getBiomeColor (b : Biome) (height x z : ℝ) : Color3 :=
  let base := b.baseColor
  let h01v := clamp01 ((height + 32) / 96)
  let tex := (((noise2D (x * 0.20) (z * 0.20) + 1) * 0.5) - 0.5) * 0.16
  let lift := 0.78 + h01v * 0.32 + tex
  ⟨clamp01 (base.r * lift), clamp01 (base.g * lift), clamp01 (base.b * lift)⟩

/-- `getBiomeMixedColor` from src/world/biomes.js. -/
def getBiomeMixedColor (cfg : WorldConfig) (height x z : ℝ) : Option Color3 :=
  (getBiomeMixAt cfg x z).map (fun mix =>
    if mix.weights.length = 1 then getBiomeColor mix.dominant height x z
    else
      let r := mix.weights.foldl
        (fun acc it => acc + (getBiomeColor it.1 height x z).r * it.2) 0
      let g := mix.weights.foldl
        (fun acc it => acc + (getBiomeColor it.1 height x z).g * it.2) 0
      let b := mix.weights.foldl
        (fun acc it => acc + (getBiomeColor it.1 height x z).b * it.2) 0
      ⟨clamp01 r, clamp01 g, clamp01 b⟩)

end

/-! ## Elementary clamp / smooth bounds -/

theorem clamp01_nonneg (v : ℝ) : 0 ≤ clamp01 v := le_max_left 0 _

theorem clamp01_le_one (v : ℝ) : clamp01 v ≤ 1 :=
  max_le (by norm_num) (min_le_left 1 v)

theorem clamp01_of_nonpos {v : ℝ} (h : v ≤ 0) : clamp01 v = 0 :=
  max_eq_left (le_trans (min_le_right 1 v) h)

theorem clamp01_of_mem {v : ℝ} (h0 : 0 ≤ v) (h1 : v ≤ 1) : clamp01 v = v := by
  unfold clamp01
  rw [min_eq_right h1, max_eq_right h0]

theorem clamp01_of_one_le {v : ℝ} (h : 1 ≤ v) : clamp01 v = 1 := by
  unfold clamp01
  rw [min_eq_left h]
  exact max_eq_right (by norm_num)

theorem le_clamp01 {c v : ℝ} (hc0 : 0 ≤ c) (hc1 : c ≤ 1) (h : c ≤ v) :
    c ≤ clamp01 v :=
  le_max_of_le_right (le_min hc1 h)

theorem smooth01_eq_smoothstep (t : ℝ) : smooth01 t = smoothstep t := rfl

theorem cellRand01_nonneg (cx cz salt : ℤ) : 0 ≤ cellRand01 cx cz salt :=
  clamp01_nonneg _

theorem cellRand01_le_one (cx cz salt : ℤ) : cellRand01 cx cz salt ≤ 1 :=
  clamp01_le_one _

theorem climateAt_temp_mem (cfg : WorldConfig) (cx cz : ℤ) :
    0 ≤ (climateAt cfg cx cz).temp ∧ (climateAt cfg cx cz).temp ≤ 1 :=
  ⟨clamp01_nonneg _, clamp01_le_one _⟩

/-! ## Claim C3: biome weight mix shape -/

/-- **C3** — confirmed.  Whenever `getBiomeWeights` succeeds it returns an
ordered list of 1 or 2 `(biome, weight)` entries, every weight lies in
`[0, 1]`, and the weights sum to exactly 1 (the idealised arithmetic is
exact, so no floating-point tolerance is needed). -/
theorem C3_biome_weights_normalised (cfg : WorldConfig) (x z : ℝ)
    (ws : List (Biome × ℝ)) (h : getBiomeWeights cfg x z = some ws) :
    (ws.length = 1 ∨ ws.length = 2) ∧
    (∀ p ∈ ws, 0 ≤ p.2 ∧ p.2 ≤ 1) ∧
    (ws.map Prod.snd).sum = 1 := by
  simp only [getBiomeWeights] at h
  split at h
  · split_ifs at h with heq
    · obtain rfl := Option.some_injective _ h.symm
      refine ⟨Or.inl rfl, ?_, by simp⟩
      intro p hp
      simp only [List.mem_singleton] at hp
      subst hp
      exact ⟨by norm_num, by norm_num⟩
    · obtain rfl := Option.some_injective _ h.symm
      have hw0 : (0:ℝ) ≤ clamp01 (0.06 + 0.94 * smooth01 (clamp01
          ((clamp01 ((Real.sqrt (nearestTwoCells cfg x z).2.d2 -
            Real.sqrt (nearestTwoCells cfg x z).1.d2) /
            (cfg.biomeCell * 0.55)) - cfg.transitionBand) /
            (1.0 - cfg.transitionBand)))) := clamp01_nonneg _
      have hw1 : clamp01 (0.06 + 0.94 * smooth01 (clamp01
          ((clamp01 ((Real.sqrt (nearestTwoCells cfg x z).2.d2 -
            Real.sqrt (nearestTwoCells cfg x z).1.d2) /
            (cfg.biomeCell * 0.55)) - cfg.transitionBand) /
            (1.0 - cfg.transitionBand)))) ≤ 1 := clamp01_le_one _
      refine ⟨Or.inr rfl, ?_, by norm_num⟩
      intro p hp
      simp only [List.mem_cons, List.mem_singleton] at hp
      rcases hp with rfl | rfl | h'
      · exact ⟨hw0, hw1⟩
      · refine ⟨?_, ?_⟩ <;> dsimp only <;> linarith
      · exact absurd h' (List.not_mem_nil p)
  · exact absurd h (by simp)

/-! ## Claim C7 (amended): which side of the border gets the 6% floor -/

/-- **C7** — amended.  In the two-entry case it is the *nearer* cell's biome
whose weight never drops below the 0.06 floor; the farther cell's biome's
weight is only guaranteed nonnegative (and reaches exactly 0 deep inside a
cell — see the counterexample theorem). -/
theorem C7_floor_is_on_nearer_cell (cfg : WorldConfig) (x z : ℝ)
    (a b : Biome) (wa wb : ℝ)
    (h : getBiomeWeights cfg x z = some [(a, wa), (b, wb)]) :
    0.06 ≤ wa ∧ 0 ≤ wb := by
  simp only [getBiomeWeights] at h
  split at h
  · split_ifs at h with heq
    · exact absurd (congrArg (fun o => Option.map List.length o) h) (by simp)
    · have hinj := Option.some_injective _ h
      set c := clamp01 (0.06 + 0.94 * smooth01 (clamp01
          ((clamp01 ((Real.sqrt (nearestTwoCells cfg x z).2.d2 -
            Real.sqrt (nearestTwoCells cfg x z).1.d2) /
            (cfg.biomeCell * 0.55)) - cfg.transitionBand) /
            (1.0 - cfg.transitionBand)))) with hc
      have hlow : 0.06 ≤ c := by
        rw [hc]
        refine le_clamp01 (by norm_num) (by norm_num) ?_
        have h0 : 0 ≤ clamp01 ((clamp01 ((Real.sqrt (nearestTwoCells cfg x z).2.d2 -
            Real.sqrt (nearestTwoCells cfg x z).1.d2) /
            (cfg.biomeCell * 0.55)) - cfg.transitionBand) /
            (1.0 - cfg.transitionBand)) := clamp01_nonneg _
        have h1 : clamp01 ((clamp01 ((Real.sqrt (nearestTwoCells cfg x z).2.d2 -
            Real.sqrt (nearestTwoCells cfg x z).1.d2) /
            (cfg.biomeCell * 0.55)) - cfg.transitionBand) /
            (1.0 - cfg.transitionBand)) ≤ 1 := clamp01_le_one _
        have := smoothstep_nonneg h0 h1
        rw [smooth01_eq_smoothstep]
        linarith
      have hhigh : c ≤ 1 := by rw [hc]; exact clamp01_le_one _
      simp only [List.cons.injEq, Prod.mk.injEq, and_true] at hinj
      obtain ⟨⟨-, hwa⟩, -, hwb⟩ := hinj
      rw [← hwa, ← hwb]
      exact ⟨hlow, by linarith⟩
  · exact absurd h (by simp)

/-! ## Claim C10: at the border the dominant biome is the second-nearest -/

/-- **C10** — confirmed.  In the two-entry case, whenever the normalised edge
distance is at or below the (sane, `[0,1)`) transition band, the nearer
cell's biome receives weight exactly `clamp01 0.06 = 0.06`, the farther
cell's biome receives `0.94`, and therefore `getBiomeAt` — the dominant of
the mix — returns the biome of the second-nearest feature point. -/
theorem C10_border_dominant_is_second_nearest (cfg : WorldConfig) (x z : ℝ)
    (a b : Biome) (wa wb : ℝ)
    (hb0 : 0 ≤ cfg.transitionBand) (hb1 : cfg.transitionBand < 1)
    (h : getBiomeWeights cfg x z = some [(a, wa), (b, wb)])
    (hedge : edgeDist cfg x z ≤ cfg.transitionBand) :
    wa = 0.06 ∧ wb = 0.94 ∧ getBiomeAt cfg x z = some b := by
  have hE : clamp01 ((Real.sqrt (nearestTwoCells cfg x z).2.d2 -
      Real.sqrt (nearestTwoCells cfg x z).1.d2) /
      (cfg.biomeCell * 0.55)) = edgeDist cfg x z := rfl
  have hkey : wa = 0.06 ∧ wb = 0.94 := by
    simp only [getBiomeWeights] at h
    split at h
    · split_ifs at h with heq
      · exact absurd (congrArg (fun o => Option.map List.length o) h) (by simp)
      · rw [hE] at h
        have hquot : (edgeDist cfg x z - cfg.transitionBand) /
            (1.0 - cfg.transitionBand) ≤ 0 := by
          apply div_nonpos_of_nonpos_of_nonneg
          · linarith
          · linarith
        have hcl : clamp01 ((edgeDist cfg x z - cfg.transitionBand) /
            (1.0 - cfg.transitionBand)) = 0 := clamp01_of_nonpos hquot
        rw [hcl] at h
        have ht : smooth01 (0:ℝ) = 0 := by unfold smooth01; ring
        rw [ht] at h
        have h06 : clamp01 (0.06 + 0.94 * (0:ℝ)) = 0.06 := by
          rw [show (0.06 + 0.94 * (0:ℝ)) = 0.06 by ring]
          exact clamp01_of_mem (by norm_num) (by norm_num)
        rw [h06] at h
        have hinj := Option.some_injective _ h
        simp only [List.cons.injEq, Prod.mk.injEq, and_true] at hinj
        obtain ⟨⟨-, hwa⟩, -, hwb⟩ := hinj
        refine ⟨hwa.symm, ?_⟩
        rw [← hwb]
        norm_num
    · exact absurd h (by simp)
  obtain ⟨hwa, hwb⟩ := hkey
  subst hwa; subst hwb
  refine ⟨rfl, rfl, ?_⟩
  unfold getBiomeAt getBiomeMixAt
  rw [h]
  simp only [Option.some_bind, List.length_cons, List.length_nil, List.foldl]
  rw [if_neg (by norm_num : ¬(0 + 1 + 1 = 1)),
    if_neg (lt_irrefl (0.06 : ℝ)),
    if_pos (by norm_num : (0.06 : ℝ) < 0.94)]
  rfl

/-! ## Claim C8: classifier and registry fallbacks -/

/-- The scoring loop never lets the best score reach `bound` if no candidate
does. -/
theorem pickLoop_bound (cfg : WorldConfig) (c : Climate) (pocket jit bound : ℝ) :
    ∀ (l : List Biome) (st : ℝ × String), st.1 < bound →
    (∀ b ∈ l, biomeScore b c pocket + jit < bound) →
    (l.foldl (fun st b =>
      if skipBiome cfg b then st
      else
        let s := biomeScore b c pocket + jit
        if st.1 < s then (s, b.id) else st) st).1 < bound := by
  intro l
  induction l with
  | nil => intro st h _; exact h
  | cons b tl ih =>
      intro st hst hall
      simp only [List.foldl_cons]
      apply ih
      · by_cases hsk : skipBiome cfg b
        · rw [if_pos hsk]; exact hst
        · rw [if_neg hsk]
          by_cases hlt : st.1 < biomeScore b c pocket + jit
          · rw [if_pos hlt]; exact hall b (List.mem_cons_self b tl)
          · rw [if_neg hlt]; exact hst
      · intro b' hb'; exact hall b' (List.mem_cons_of_mem _ hb')

theorem pickTypeForCell_overlay (cfg : WorldConfig) (ov : OverlayCfg)
    (hr : cfg.ruinsOverlay = some ov) (cx cz : ℤ) :
    pickTypeForCell cfg cx cz =
      if ov.enabled = true ∧ ov.threshold < cellRand01 cx cz 777 ∧
          (biomesGet cfg ov.biomeId).isSome
      then ov.biomeId
      else pickTypeCore cfg (climateAt cfg cx cz) (cellRand01 cx cz 91)
        (cellRand01 cx cz 777) := by
  unfold pickTypeForCell
  rw [hr]

theorem pickTypeForCell_no_overlay (cfg : WorldConfig)
    (hr : cfg.ruinsOverlay = none) (cx cz : ℤ) :
    pickTypeForCell cfg cx cz =
      pickTypeCore cfg (climateAt cfg cx cz) (cellRand01 cx cz 91)
        (cellRand01 cx cz 777) := by
  unfold pickTypeForCell
  rw [hr]

/-- **C8** — amended.  Provided the ruins-overlay override does not fire at
the cell, all-below-floor classifier scores make `pickTypeForCell` return
the fixed default biome id; an unknown biome id resolves to the registry's
default biome; and as long as the default biome is present in the registry,
`getBiomeWeights` never fails for any `(x, z)`. -/
theorem C8_default_fallbacks :
    (∀ (cfg : WorldConfig) (cx cz : ℤ),
      (∀ ov, cfg.ruinsOverlay = some ov →
        ¬(ov.enabled = true ∧ ov.threshold < cellRand01 cx cz 777 ∧
          (biomesGet cfg ov.biomeId).isSome)) →
      (∀ b ∈ cfg.biomes,
        biomeScore b (climateAt cfg cx cz) (cellRand01 cx cz 777) +
          (cellRand01 cx cz 91 - 0.5) * 0.04 < 0.08) →
      pickTypeForCell cfg cx cz = "crystalline_plains") ∧
    (∀ (cfg : WorldConfig) (id : String), biomesGet cfg id = none →
      resolveBiome cfg id = biomesGet cfg "crystalline_plains") ∧
    (∀ (cfg : WorldConfig) (x z : ℝ),
      (biomesGet cfg "crystalline_plains").isSome →
      (getBiomeWeights cfg x z).isSome) := by
  refine ⟨?_, ?_, ?_⟩
  · intro cfg cx cz hov hlow
    have hcore : pickTypeCore cfg (climateAt cfg cx cz) (cellRand01 cx cz 91)
        (cellRand01 cx cz 777) = "crystalline_plains" := by
      simp only [pickTypeCore]
      rw [if_pos]
      exact pickLoop_bound cfg (climateAt cfg cx cz) (cellRand01 cx cz 777)
        ((cellRand01 cx cz 91 - 0.5) * 0.04) 0.08 cfg.biomes _
        (by norm_num) hlow
    cases hr : cfg.ruinsOverlay with
    | none => rw [pickTypeForCell_no_overlay cfg hr]; exact hcore
    | some ov =>
        rw [pickTypeForCell_overlay cfg ov hr, if_neg (hov ov hr)]
        exact hcore
  · intro cfg id h
    unfold resolveBiome
    rw [h]
    rfl
  · intro cfg x z hdef
    have hres : ∀ t, (resolveBiome cfg t).isSome := by
      intro t
      unfold resolveBiome
      cases h' : biomesGet cfg t with
      | none => simpa [Option.orElse] using hdef
      | some b => simp [Option.orElse]
    obtain ⟨bA, hA⟩ := Option.isSome_iff_exists.mp
      (hres (nearestTwoCells cfg x z).1.type)
    obtain ⟨bB, hB⟩ := Option.isSome_iff_exists.mp
      (hres (nearestTwoCells cfg x z).2.type)
    simp only [getBiomeWeights, hA, hB]
    split_ifs <;> simp

/-- A climate preference so far from the attainable `[0,1]` climate range
that it scores 0 everywhere — used to build classifier-degenerate
configurations. -/
def farPref : ClimatePref :=
  { temp := some { center := 5, width := 0.1, pow := none },
    moist := none, elev := none }

theorem biomeScore_farPref_zero (b : Biome) (hpref : b.climatePref = some farPref)
    (hgate : b.rarityGate = none) (c : Climate)
    (hc0 : 0 ≤ c.temp) (hc1 : c.temp ≤ 1) (rp : ℝ) :
    biomeScore b c rp = 0 := by
  unfold biomeScore
  rw [hpref, hgate]
  simp only [farPref]
  have hmax : max ((1:ℝ)/1000000) 0.1 = 0.1 := max_eq_right (by norm_num)
  have hd : 4 ≤ |c.temp - 5| := by
    rw [abs_sub_comm, abs_of_nonneg (by linarith)]
    linarith
  have hs : clamp01 (1 - |c.temp - 5| / max ((1:ℝ)/1000000) 0.1) = 0 := by
    apply clamp01_of_nonpos
    rw [hmax]
    have : (40:ℝ) ≤ |c.temp - 5| / 0.1 := by
      rw [le_div_iff₀ (by norm_num)]
      linarith
    linarith
  unfold scoreNear
  simp only [Option.getD_none]
  rw [hs]
  have hp : max ((1:ℝ)/10000) 1 = 1 := max_eq_right (by norm_num)
  rw [hp, Real.rpow_one]
  ring


theorem jitter_le (cx cz : ℤ) : (cellRand01 cx cz 91 - 0.5) * 0.04 ≤ 0.02 := by
  have := cellRand01_le_one cx cz 91
  nlinarith [cellRand01_nonneg cx cz 91]

/-- The counterexample configuration for C8: the ruins overlay is enabled
with threshold 0.5 and every biome scores 0 everywhere. -/
def bRuinsO : Biome :=
  { id := "ancient_ruins", profile := "ruins", baseColor := ⟨0.5, 0.5, 0.5⟩,
    waterColor := none, climatePref := some farPref, rarityGate := none,
    roughness := none, vertical := none, wetness := none,
    objectProbabilities := ⟨0.28, 0.12, 0.14, 0.18, 0.06⟩ }

def cfgO : WorldConfig :=
  { biomeCell := 20, transitionBand := 0.18, waterLevel := -6,
    climate := ⟨0, 0, 0, 0, 0, 0, 0, 0, 0, 0, 0⟩,
    ruinsOverlay := some ⟨true, 0.5, "ancient_ruins"⟩,
    mountain := ⟨2, 1, 1, 1, 40, 6⟩, rivers := ⟨6, 10, 0.8⟩,
    ice := ⟨1000, 0.3, 0.4, 20, 40⟩, biomes := [bRuinsO] }

/-- **C8** — counterexample.  At cell (0,0) of `cfgO` every candidate
biome's jittered classifier score is below the 0.08 floor, yet
`pickTypeForCell` returns the overlay biome `"ancient_ruins"`, not the fixed
default `"crystalline_plains"`: the ruins-overlay special case takes
precedence over the degenerate-score fallback, which the claim omits. -/
theorem C8_overlay_beats_default_counterexample :
    pickTypeForCell cfgO 0 0 = "ancient_ruins" ∧
    (∀ b ∈ cfgO.biomes,
      biomeScore b (climateAt cfgO 0 0) (cellRand01 0 0 777) +
        (cellRand01 0 0 91 - 0.5) * 0.04 < 0.08) ∧
    ("ancient_ruins" : String) ≠ "crystalline_plains" := by
  have hpocket : cellRand01 0 0 777 = 1 := by
    unfold cellRand01
    rw [show ((0:ℤ) * 928371 + 777) = 777 by ring,
      show ((0:ℤ) * 1231337 - 777) = -777 by ring,
      hash2DR_eq_one (hash2D_eq_one_of 777 (-777) (by decide))]
    rw [show ((1:ℝ) + 1) * 0.5 = 1 by ring]
    exact clamp01_of_one_le le_rfl
  have hlook : biomesGet cfgO "ancient_ruins" = some bRuinsO := by
    simp [biomesGet, cfgO, bRuinsO, List.find?]
  refine ⟨?_, ?_, by decide⟩
  · rw [pickTypeForCell_overlay cfgO ⟨true, 0.5, "ancient_ruins"⟩ rfl 0 0]
    rw [if_pos ⟨rfl, by rw [hpocket]; norm_num, by rw [hlook]; rfl⟩]
  · intro b hb
    have hb' : b = bRuinsO := by simpa [cfgO] using hb
    subst hb'
    rw [biomeScore_farPref_zero bRuinsO rfl rfl _
      (climateAt_temp_mem cfgO 0 0).1 (climateAt_temp_mem cfgO 0 0).2]
    have := jitter_le 0 0
    linarith

/-- The witness configuration for the amended C8: no overlay, a single
degenerate-scoring biome carrying the default id. -/
def bFarD : Biome :=
  { id := "crystalline_plains", profile := "plains",
    baseColor := ⟨0.6, 0.65, 0.7⟩, waterColor := none,
    climatePref := some farPref, rarityGate := none,
    roughness := none, vertical := none, wetness := none,
    objectProbabilities := ⟨0.06, 0.1, 0.16, 0.2, 0.03⟩ }

def cfgD : WorldConfig :=
  { biomeCell := 20, transitionBand := 0.18, waterLevel := -6,
    climate := ⟨0, 0, 0, 0, 0, 0, 0, 0, 0, 0, 0⟩,
    ruinsOverlay := none,
    mountain := ⟨2, 1, 1, 1, 40, 6⟩, rivers := ⟨6, 10, 0.8⟩,
    ice := ⟨1000, 0.3, 0.4, 20, 40⟩, biomes := [bFarD] }

/-- Witness for the amended C8, applying it at `cfgD`, cell (0,0), the
unknown id `"swamp"`, and the query point (0,0). -/
theorem C8_default_fallbacks_witness :
    pickTypeForCell cfgD 0 0 = "crystalline_plains" ∧
    resolveBiome cfgD "swamp" = biomesGet cfgD "crystalline_plains" ∧
    (getBiomeWeights cfgD 0 0).isSome := by
  refine ⟨C8_default_fallbacks.1 cfgD 0 0 ?_ ?_,
    C8_default_fallbacks.2.1 cfgD "swamp" ?_,
    C8_default_fallbacks.2.2 cfgD 0 0 ?_⟩
  · intro ov hov
    simp [cfgD] at hov
  · intro b hb
    have hb' : b = bFarD := by simpa [cfgD] using hb
    subst hb'
    rw [biomeScore_farPref_zero bFarD rfl rfl _
      (climateAt_temp_mem cfgD 0 0).1 (climateAt_temp_mem cfgD 0 0).2]
    have := jitter_le 0 0
    linarith
  · simp [biomesGet, cfgD, bFarD, List.find?]
  · rw [show biomesGet cfgD "crystalline_plains" = some bFarD from by
      simp [biomesGet, cfgD, bFarD, List.find?]]
    rfl

/-! ## Terrain (src/world/terrain.js, JSON-driven variant) -/

noncomputable section

/-- `n(x, z)` from src/world/terrain.js: `Number.isFinite(v) ? v : 0`.
Idealised reals are always finite, so the guard is the identity. -/
def nsafe (x z : ℝ) : ℝ := noise2D x z

/-- `fract` from src/world/terrain.js. -/
def fract (v : ℝ) : ℝ := v - ⌊v⌋

/-- `rand01` from src/world/terrain.js (callers pass `Math.floor`ed
coordinates, hence integer arguments). -/
def rand01 (ix iz : ℤ) : ℝ := fract (|hash2DR ix iz| * 43758.5453123)

/-- Accumulator of the `fbm` loop: `(a, f, sum, norm)` after `k` octaves. -/
def fbmAcc (x z lac gain : ℝ) : ℕ → ℝ × ℝ × ℝ × ℝ
  | 0 => (1, 1, 0, 0)
  | k + 1 =>
      let p := fbmAcc x z lac gain k
      (p.1 * gain, p.2.1 * lac,
       p.2.2.1 + nsafe (x * p.2.1) (z * p.2.1) * p.1, p.2.2.2 + p.1)

/-- `fbm` from src/world/terrain.js. -/
def fbm (x z : ℝ) (oct : ℕ) (lac gain : ℝ) : ℝ :=
  let p := fbmAcc x z lac gain oct
  p.2.2.1 / max (1/1000000) p.2.2.2

/-- Accumulator of the `ridged` loop (each octave contributes
`pow(1 - |n|, 1.8) * a`). -/
def ridgedAcc (x z lac gain : ℝ) : ℕ → ℝ × ℝ × ℝ × ℝ
  | 0 => (1, 1, 0, 0)
  | k + 1 =>
      let p := ridgedAcc x z lac gain k
      (p.1 * gain, p.2.1 * lac,
       p.2.2.1 + (1.0 - |nsafe (x * p.2.1) (z * p.2.1)|) ^ (1.8 : ℝ) * p.1,
       p.2.2.2 + p.1)

/-- `ridged` from src/world/terrain.js. -/
def ridged (x z : ℝ) (oct : ℕ) (lac gain : ℝ) : ℝ :=
  let p := ridgedAcc x z lac gain oct
  clamp01 (p.2.2.1 / max (1/1000000) p.2.2.2)

/-- `softClamp` from src/world/terrain.js: quadratic ease into `hardMax`
above the knee. -/
def softClamp (v hardMax knee : ℝ) : ℝ :=
  if v ≤ hardMax - knee then v
  else
    let t := clamp01 ((v - (hardMax - knee)) / max (1/1000000) knee)
    lerp v hardMax (t * t)

/-- `getRiverFactor` from src/world/terrain.js. -/
def getRiverFactor (x z : ℝ) : ℝ :=
  let warp := fbm (x * 0.010) (z * 0.010) 2 2.0 0.55
  let wx := x + warp * 18
  let wz := z - warp * 14
  let field := fbm (wx * 0.020 + 100) (wz * 0.020 - 50) 2 2.0 0.55
  let d := |field|
  let river := clamp01 (1.0 - d / 0.28)
  river * river

/-- `getRavineFactor` from src/world/terrain.js. -/
def getRavineFactor (x z : ℝ) : ℝ :=
  let warp := fbm (x * 0.012 + 17.7) (z * 0.012 - 9.3) 2 2.0 0.55
  let wx := x + warp * 12
  let wz := z - warp * 9
  let f := fbm (wx * 0.040) (wz * 0.040) 2 2.0 0.55
  let d := |f|
  let rav := clamp01 (1.0 - d / 0.10)
  rav * rav

/-- `riverCarve` from src/world/terrain.js. -/
def riverCarve (cfg : WorldConfig) (x z : ℝ) : ℝ :=
  let f := getRiverFactor x z
  if f ≤ 0 then 0
  else -(f * cfg.rivers.riverDepth +
    f * fbm (x * 0.08) (z * 0.08) 2 2.0 0.55 * 2.0)

/-- `ravineCarve` from src/world/terrain.js. -/
def ravineCarve (cfg : WorldConfig) (x z : ℝ) : ℝ :=
  let f := getRavineFactor x z
  if f ≤ 0 then 0
  else -(f * cfg.rivers.ravineDepth +
    f * fbm (x * 0.14) (z * 0.14) 2 2.0 0.55 * 1.2)

/-- `getIceFactor` from src/world/terrain.js. -/
def getIceFactor (cfg : WorldConfig) (x z h : ℝ) : ℝ :=
  let c := cfg.ice
  let lat := clamp01 (|z| / c.latScale)
  let coldNoise := (fbm (x * 0.006 + 10) (z * 0.006 - 5) 3 2.0 0.55 + 1) * 0.5
  let cold := clamp01 (lat * c.coldLatWeight + coldNoise * c.coldNoiseWeight)
  let elev := clamp01 ((h - c.elevStart) / c.elevRange)
  clamp01 (cold * (0.45 + 0.55 * elev))

/-- `profileBase` from src/world/terrain.js. -/
def profileBase (x z : ℝ) : ℝ :=
  fbm (x * 0.004) (z * 0.004) 3 2.0 0.55 * 20.0 + 6.0

/-- `heightDesert` from src/world/terrain.js. -/
def heightDesert (x z : ℝ) : ℝ :=
  let base := profileBase x z * 0.55
  let dir := fbm (x * 0.002) (z * 0.002) 2 2.0 0.55 * Real.pi
  let v := Real.cos dir * x + Real.sin dir * z
  let dunes := Real.sin (v * 0.20) * 4.5 + Real.sin (v * 0.55) * 1.6
  let ripples := fbm (x * 0.09) (z * 0.09) 2 2.0 0.55 * 1.2
  let wash := getRiverFactor (x * 0.9) (z * 0.9)
  let washCarve := -(wash * 5.5)
  let mesaMask := clamp01 (((fbm (x * 0.002 + 90) (z * 0.002 - 40) 2 2.0 0.55
    + 1) * 0.5 - 0.80) / 0.20)
  let mesa := if 0 < mesaMask then mesaMask * 10.0 else 0
  base + dunes + ripples + washCarve + mesa

/-- `heightSwamp` from src/world/terrain.js. -/
def heightSwamp (x z : ℝ) : ℝ :=
  let base := profileBase x z * 0.30 - 14.0
  let basin := (fbm (x * 0.006) (z * 0.006) 3 2.0 0.55 + 1) * 0.5
  let basinCarve := -(basin * 9.0)
  let puddle := fbm (x * 0.11 + 33) (z * 0.11 - 44) 2 2.0 0.55 * 3.2
  let channel := getRiverFactor (x * 1.1) (z * 1.1)
  let channelCarve := -(channel * 8.0)
  base + basinCarve + puddle + channelCarve

/-- `heightMountains` from src/world/terrain.js: ridged backbone and
secondary ranges masked into a mountain mask, crag, erosion, terracing above
altitude 26, and the final `softClamp` against the configured hard ceiling. -/
def heightMountains (cfg : WorldConfig) (x z : ℝ) : ℝ :=
  let mcfg := cfg.mountain
  let base := profileBase x z * 0.78 + mcfg.baseLift
  let ridgeA := ridged (x * 0.0075) (z * 0.0075) 3 2.0 0.55
  let ridgeB := ridged (x * 0.015 + 77) (z * 0.015 - 55) 3 2.0 0.55
  let mask := clamp01 ((ridgeA - 0.38) / 0.62)
  let mask2 := mask * mask
  let big := (ridgeA - 0.5) * (mcfg.bigAmp * 0.78) * (0.55 + 0.45 * mask2)
  let med := (ridgeB - 0.5) * (mcfg.medAmp * 0.72) * (0.45 + 0.55 * mask)
  let crag := (ridged (x * 0.050 - 12) (z * 0.050 + 77) 2 2.0 0.55 - 0.5) *
    (mcfg.cragAmp * 0.55)
  let erode := fbm (x * 0.020 + 9.1) (z * 0.020 - 2.7) 2 2.0 0.55
  let erosion := (erode * 0.5 + 0.5) * 7.0 * (0.40 + 0.60 * mask)
  let h0 := base + big + med + crag - erosion
  let h1 := if 26 < h0 then
      h0 * 0.55 + ((round ((h0 - 26) / 2.0) : ℤ) * 2.0 + 26) * 0.45
    else h0
  softClamp h1 mcfg.hardClamp mcfg.softKnee

/-- `heightVolcanic` from src/world/terrain.js. -/
def heightVolcanic (x z : ℝ) : ℝ :=
  let base := profileBase x z * 0.72 + 12.0
  let broken := fbm (x * 0.012) (z * 0.012) 3 2.0 0.55 * 16.0
  let rid := (ridged (x * 0.030) (z * 0.030) 2 2.0 0.55 - 0.5) * 26.0
  let calMask := clamp01 (((fbm (x * 0.005 + 91) (z * 0.005 - 18) 2 2.0 0.55
    + 1) * 0.5 - 0.78) / 0.22)
  let caldera := if 0 < calMask then -(calMask * 18.0) else 0
  base + broken + rid + caldera

/-- `heightPlains` from src/world/terrain.js. -/
def heightPlains (x z : ℝ) : ℝ :=
  let base := profileBase x z * 0.60
  let roll := fbm (x * 0.010) (z * 0.010) 3 2.0 0.55 * 10.0
  let micro := fbm (x * 0.090 + 21) (z * 0.090 - 13) 2 2.0 0.55 * 2.8
  base + roll + micro

/-- `heightForest` from src/world/terrain.js. -/
def heightForest (x z : ℝ) : ℝ :=
  let base := heightPlains x z * 0.95
  let hum := fbm (x * 0.060) (z * 0.060) 2 2.0 0.55 * 3.2
  let creek := getRiverFactor (x * 1.05) (z * 1.05) * (-3.5)
  base + hum + creek

/-- `heightGlacier` from src/world/terrain.js. -/
def heightGlacier (x z : ℝ) : ℝ :=
  let base := profileBase x z * 0.72 + 8.0
  let drift := fbm (x * 0.008) (z * 0.008) 3 2.0 0.55 * 8.0
  let crev := (ridged (x * 0.050) (z * 0.050) 2 2.0 0.55 - 0.5) * 6.0
  base + drift + crev

/-- `heightRuins` from src/world/terrain.js. -/
def heightRuins (x z : ℝ) : ℝ :=
  let base := heightPlains x z * 1.05
  let steps := ((round (fbm (x * 0.020) (z * 0.020) 2 2.0 0.55 * 6.0) : ℤ)
    : ℝ) * 1.5
  base + steps

/-- `heightForProfile` from src/world/terrain.js. -/
def heightForProfile (cfg : WorldConfig) (profile : String) (x z : ℝ) : ℝ :=
  match profile with
  | "desert" => heightDesert x z
  | "swamp" => heightSwamp x z
  | "mountains" => heightMountains cfg x z
  | "volcanic" => heightVolcanic x z
  | "plains" => heightPlains x z
  | "forest" => heightForest x z
  | "glacier" => heightGlacier x z
  | "ruins" => heightRuins x z
  | _ => heightPlains x z

/-- `getHeightRaw` from src/world/terrain.js: profile blend weighted by the
biome mix, vertical shaping, river/ravine carving and high-frequency
jitter. -/
def getHeightRaw (cfg : WorldConfig) (x z : ℝ) : Option ℝ :=
  (getBiomeMixAt cfg x z).map (fun mix =>
    let hv := mix.weights.foldl (fun acc it =>
      (acc.1 + heightForProfile cfg it.1.profile x z * it.2,
       acc.2 + it.1.vertical.getD 1.0 * it.2)) ((0 : ℝ), (0 : ℝ))
    let vertical := lerp 0.92 1.12 (clamp01 ((hv.2 - 0.6) / 1.2))
    hv.1 * vertical + riverCarve cfg x z +
      ravineCarve cfg x z * cfg.rivers.ravineMix +
      fbm (x * 0.13 + 7.7) (z * 0.13 - 4.2) 2 2.0 0.55 * 1.8)

/-- `getHeight` from src/world/terrain.js (`Math.round` of the raw field). -/
def getHeight (cfg : WorldConfig) (x z : ℝ) : Option ℤ :=
  (getHeightRaw cfg x z).map (fun h => round h)

/-- `getColorForHeight` from src/world/terrain.js: biome-mixed color,
darkened near river/ravine channels, tinted toward blue near ice, and
jittered by a stable per-integer-coordinate offset. -/
def getColorForHeight (cfg : WorldConfig) (h x z : ℝ) : Option Color3 :=
  (getBiomeMixedColor cfg h x z).map (fun c0 =>
    let r := getRiverFactor x z
    let v := getRavineFactor x z
    let d := clamp01 (r * 0.30 + v * 0.35)
    let c1 := if 0 < d then
        Color3.mk (clamp01 (c0.r * (1.0 - d))) (clamp01 (c0.g * (1.0 - d)))
          (clamp01 (c0.b * (1.0 - d)))
      else c0
    let ice := getIceFactor cfg x z h
    let c2 := if 0.35 < ice then
        let t := clamp01 ((ice - 0.35) / 0.50)
        Color3.mk (lerp c1.r (c1.r * 0.80) t) (lerp c1.g (c1.g * 0.88) t)
          (lerp c1.b (min 1 (c1.b * 1.10)) t)
      else c1
    let j := (rand01 ⌊x⌋ ⌊z⌋ - 0.5) * 0.06
    Color3.mk (clamp01 (c2.r + j)) (clamp01 (c2.g + j)) (clamp01 (c2.b + j)))

end

/-! ## Claim C6: the mountains profile against its hard ceiling -/

/-- With a knee of at least the `1e-6` guard, `softClamp` never exceeds its
hard ceiling. -/
theorem softClamp_le {v hardMax knee : ℝ} (hk : 1/1000000 ≤ knee) :
    softClamp v hardMax knee ≤ hardMax := by
  unfold softClamp
  split_ifs with h
  · linarith
  · push_neg at h
    rw [max_eq_right hk]
    set q := (v - (hardMax - knee)) / knee with hq
    have hkpos : 0 < knee := by linarith
    have ht0 : 0 ≤ clamp01 q := clamp01_nonneg q
    have ht1 : clamp01 q ≤ 1 := clamp01_le_one q
    show lerp v hardMax (clamp01 q * clamp01 q) ≤ hardMax
    by_cases hv : v ≤ hardMax
    · have ht2 : clamp01 q * clamp01 q ≤ 1 := by nlinarith
      have hkey : 0 ≤ (hardMax - v) * (1 - clamp01 q * clamp01 q) :=
        mul_nonneg (by linarith) (by linarith)
      unfold lerp
      nlinarith [hkey]
    · push_neg at hv
      have hq1 : 1 ≤ q := by
        rw [hq, le_div_iff₀ hkpos]
        linarith
      rw [clamp01_of_one_le hq1]
      unfold lerp
      ring_nf
      linarith

/-- **C6** — amended.  For every configuration whose hard clamp is positive
and whose soft knee is at least the `1e-6` guard used inside `softClamp`,
the mountains profile never exceeds the configured hard clamp, whatever the
underlying noise octaves produce (terracing branch included).  (With a
positive knee *below* `1e-6` the bound can be overshot — see the
counterexample.) -/
theorem C6_mountains_hard_clamp (cfg : WorldConfig) (x z : ℝ)
    (hpos : 0 < cfg.mountain.hardClamp)
    (hk : 1/1000000 ≤ cfg.mountain.softKnee) :
    heightForProfile cfg "mountains" x z ≤ cfg.mountain.hardClamp := by
  have hred : heightForProfile cfg "mountains" x z = heightMountains cfg x z :=
    rfl
  rw [hred]
  unfold heightMountains
  exact softClamp_le hk

/-- Witness for the amended C6 at a concrete configuration and point. -/
theorem C6_mountains_hard_clamp_witness :
    (0 : ℝ) < cfgD.mountain.hardClamp ∧
    (1/1000000 : ℝ) ≤ cfgD.mountain.softKnee ∧
    heightForProfile cfgD "mountains" 3 7 ≤ cfgD.mountain.hardClamp :=
  ⟨by norm_num [cfgD], by norm_num [cfgD],
    C6_mountains_hard_clamp cfgD 3 7 (by norm_num [cfgD]) (by norm_num [cfgD])⟩

/-! Evaluation helpers for the C6 counterexample: at the chosen point every
noise octave collapses to 1 (C2), so `fbm` is exactly 1 and `ridged` is
exactly 0 there. -/

theorem floor_eval {x : ℝ} {n : ℤ} (h1 : (n : ℝ) ≤ x) (h2 : x < n + 1) :
    ⌊x⌋ = n := Int.floor_eq_iff.mpr ⟨h1, by exact_mod_cast h2⟩

theorem fbm2_ones {x z : ℝ} (h1 : noise2D x z = 1)
    (h2 : noise2D (x * 2) (z * 2) = 1) : fbm x z 2 2.0 0.55 = 1 := by
  simp only [fbm, fbmAcc, nsafe, one_mul, mul_one]
  rw [show x * 2.0 = x * 2 by norm_num, show z * 2.0 = z * 2 by norm_num,
    h1, h2]
  rw [max_eq_right (by norm_num : (1:ℝ)/1000000 ≤ 0 + 1 + 0.55)]
  norm_num

theorem fbm3_ones {x z : ℝ} (h1 : noise2D x z = 1)
    (h2 : noise2D (x * 2) (z * 2) = 1)
    (h3 : noise2D (x * 4) (z * 4) = 1) : fbm x z 3 2.0 0.55 = 1 := by
  simp only [fbm, fbmAcc, nsafe, one_mul, mul_one]
  rw [show x * 2.0 = x * 2 by norm_num, show z * 2.0 = z * 2 by norm_num,
    show x * (2.0 * 2.0) = x * 4 by norm_num,
    show z * (2.0 * 2.0) = z * 4 by norm_num,
    h1, h2, h3]
  rw [max_eq_right (by norm_num : (1:ℝ)/1000000 ≤ 0 + 1 + 0.55 + 0.55 * 0.55)]
  norm_num

theorem ridged2_zero {x z : ℝ} (h1 : noise2D x z = 1)
    (h2 : noise2D (x * 2) (z * 2) = 1) : ridged x z 2 2.0 0.55 = 0 := by
  simp only [ridged, ridgedAcc, nsafe, one_mul, mul_one]
  rw [show x * 2.0 = x * 2 by norm_num, show z * 2.0 = z * 2 by norm_num,
    h1, h2]
  rw [show (1.0 : ℝ) - |(1:ℝ)| = 0 by norm_num]
  rw [Real.zero_rpow (by norm_num : (1.8:ℝ) ≠ 0)]
  norm_num [clamp01]

theorem ridged3_zero {x z : ℝ} (h1 : noise2D x z = 1)
    (h2 : noise2D (x * 2) (z * 2) = 1)
    (h3 : noise2D (x * 4) (z * 4) = 1) : ridged x z 3 2.0 0.55 = 0 := by
  simp only [ridged, ridgedAcc, nsafe, one_mul, mul_one]
  rw [show x * 2.0 = x * 2 by norm_num, show z * 2.0 = z * 2 by norm_num,
    show x * (2.0 * 2.0) = x * 4 by norm_num,
    show z * (2.0 * 2.0) = z * 4 by norm_num,
    h1, h2, h3]
  rw [show (1.0 : ℝ) - |(1:ℝ)| = 0 by norm_num]
  rw [Real.zero_rpow (by norm_num : (1.8:ℝ) ≠ 0)]
  norm_num [clamp01]

theorem noise2D_lit_one (x z : ℝ) (a b : ℤ) (hx : x = (a : ℝ))
    (hz : z = (b : ℝ)) (h : hash2D a b = 1) : noise2D x z = 1 := by
  rw [hx, hz, noise2D_int, hash2DR_eq_one h]

/-- Modelled from the spec: the worldConfig.json shipped with the game is
not in the sources, so this configuration instantiates the spec-modelled
`WorldConfig` with a mountain block whose hard clamp (19) and soft knee
(1e-7) are both positive, the knee sitting below the 1e-6 floor that
`softClamp` applies internally, and a base lift that parks the pre-clamp
height inside the resulting knee sliver. -/
noncomputable def cfgM : WorldConfig :=
  { biomeCell := 20, transitionBand := 0.18, waterLevel := -6,
    climate := ⟨0, 0, 0, 0, 0, 0, 0, 0, 0, 0, 0⟩,
    ruinsOverlay := none,
    mountain := ⟨4343001/2000000, 1, 1, 1, 19, 1/10000000⟩,
    rivers := ⟨6, 10, 0.8⟩,
    ice := ⟨1000, 0.3, 0.4, 20, 40⟩, biomes := [bFarD] }

/-- **C6** — counterexample to the frozen claim.  `cfgM` has a strictly
positive hard clamp (19) and a strictly positive soft knee (1e-7), yet the
mountains profile at (1000, 1000) exceeds the hard clamp: the knee is below
the `max(1e-6, knee)` guard inside `softClamp`, so the interpolation factor
`t` stays below 1 on a sliver above `hardMax` and the lerp lands strictly
above the ceiling.  (At this point every noise octave degenerates to the
constant 1.0 — see C2 — which makes the height exactly computable.) -/
theorem C6_hard_clamp_overshoot_counterexample :
    (0 : ℝ) < cfgM.mountain.hardClamp ∧
    (0 : ℝ) < cfgM.mountain.softKnee ∧
    cfgM.mountain.hardClamp < heightForProfile cfgM "mountains" 1000 1000 := by
  refine ⟨by norm_num [cfgM], by norm_num [cfgM], ?_⟩
  have hred : heightForProfile cfgM "mountains" 1000 1000 =
      heightMountains cfgM 1000 1000 := rfl
  rw [hred]
  have n44 : noise2D (4 : ℝ) 4 = 1 :=
    noise2D_lit_one 4 4 4 4 (by norm_num) (by norm_num)
      (hash2D_eq_one_of 4 4 (by decide))
  have n88 : noise2D ((4 : ℝ) * 2) ((4 : ℝ) * 2) = 1 :=
    noise2D_lit_one (4 * 2) (4 * 2) 8 8 (by norm_num) (by norm_num)
      (hash2D_eq_one_of 8 8 (by decide))
  have n1616 : noise2D ((4 : ℝ) * 4) ((4 : ℝ) * 4) = 1 :=
    noise2D_lit_one (4 * 4) (4 * 4) 16 16 (by norm_num) (by norm_num)
      (hash2D_eq_one_of 16 16 (by decide))
  have hfbm4 : fbm ((1000 : ℝ) * 0.004) ((1000 : ℝ) * 0.004) 3 2.0 0.55
      = 1 := by
    rw [show ((1000 : ℝ) * 0.004) = 4 from by norm_num]
    exact fbm3_ones n44 n88 n1616
  have hpb : profileBase (1000 : ℝ) 1000 = 26 := by
    unfold profileBase
    rw [hfbm4]
    norm_num
  have n75 : noise2D (7.5 : ℝ) 7.5 = 1 :=
    noise2D_eq_one 7.5 7.5 7 7 (floor_eval (by norm_num) (by norm_num))
      (floor_eval (by norm_num) (by norm_num))
      (hash2D_eq_one_of 7 7 (by decide)) (hash2D_eq_one_of 8 7 (by decide))
      (hash2D_eq_one_of 7 8 (by decide)) (hash2D_eq_one_of 8 8 (by decide))
  have n15 : noise2D ((7.5 : ℝ) * 2) ((7.5 : ℝ) * 2) = 1 :=
    noise2D_lit_one (7.5 * 2) (7.5 * 2) 15 15 (by norm_num) (by norm_num)
      (hash2D_eq_one_of 15 15 (by decide))
  have n30 : noise2D ((7.5 : ℝ) * 4) ((7.5 : ℝ) * 4) = 1 :=
    noise2D_lit_one (7.5 * 4) (7.5 * 4) 30 30 (by norm_num) (by norm_num)
      (hash2D_eq_one_of 30 30 (by decide))
  have hrA : ridged ((1000 : ℝ) * 0.0075) ((1000 : ℝ) * 0.0075) 3 2.0 0.55
      = 0 := by
    rw [show ((1000 : ℝ) * 0.0075) = 7.5 from by norm_num]
    exact ridged3_zero n75 n15 n30
  have n92 : noise2D (92 : ℝ) (-40) = 1 :=
    noise2D_lit_one 92 (-40) 92 (-40) (by norm_num) (by norm_num)
      (hash2D_eq_one_of 92 (-40) (by decide))
  have n184 : noise2D ((92 : ℝ) * 2) ((-40 : ℝ) * 2) = 1 :=
    noise2D_lit_one (92 * 2) ((-40) * 2) 184 (-80) (by norm_num)
      (by norm_num) (hash2D_eq_one_of 184 (-80) (by decide))
  have n368 : noise2D ((92 : ℝ) * 4) ((-40 : ℝ) * 4) = 1 :=
    noise2D_lit_one (92 * 4) ((-40) * 4) 368 (-160) (by norm_num)
      (by norm_num) (hash2D_eq_one_of 368 (-160) (by decide))
  have hrB : ridged ((1000 : ℝ) * 0.015 + 77) ((1000 : ℝ) * 0.015 - 55)
      3 2.0 0.55 = 0 := by
    rw [show ((1000 : ℝ) * 0.015 + 77) = 92 from by norm_num,
      show ((1000 : ℝ) * 0.015 - 55) = -40 from by norm_num]
    exact ridged3_zero n92 n184 n368
  have n38 : noise2D (38 : ℝ) 127 = 1 :=
    noise2D_lit_one 38 127 38 127 (by norm_num) (by norm_num)
      (hash2D_eq_one_of 38 127 (by decide))
  have n76 : noise2D ((38 : ℝ) * 2) ((127 : ℝ) * 2) = 1 :=
    noise2D_lit_one (38 * 2) (127 * 2) 76 254 (by norm_num) (by norm_num)
      (hash2D_eq_one_of 76 254 (by decide))
  have hcr : ridged ((1000 : ℝ) * 0.050 - 12) ((1000 : ℝ) * 0.050 + 77)
      2 2.0 0.55 = 0 := by
    rw [show ((1000 : ℝ) * 0.050 - 12) = 38 from by norm_num,
      show ((1000 : ℝ) * 0.050 + 77) = 127 from by norm_num]
    exact ridged2_zero n38 n76
  have n291 : noise2D (29.1 : ℝ) 17.3 = 1 :=
    noise2D_eq_one 29.1 17.3 29 17 (floor_eval (by norm_num) (by norm_num))
      (floor_eval (by norm_num) (by norm_num))
      (hash2D_eq_one_of 29 17 (by decide))
      (hash2D_eq_one_of 30 17 (by decide))
      (hash2D_eq_one_of 29 18 (by decide))
      (hash2D_eq_one_of 30 18 (by decide))
  have n582 : noise2D ((29.1 : ℝ) * 2) ((17.3 : ℝ) * 2) = 1 := by
    rw [show ((29.1 : ℝ) * 2) = 58.2 from by norm_num,
      show ((17.3 : ℝ) * 2) = 34.6 from by norm_num]
    exact noise2D_eq_one 58.2 34.6 58 34
      (floor_eval (by norm_num) (by norm_num))
      (floor_eval (by norm_num) (by norm_num))
      (hash2D_eq_one_of 58 34 (by decide))
      (hash2D_eq_one_of 59 34 (by decide))
      (hash2D_eq_one_of 58 35 (by decide))
      (hash2D_eq_one_of 59 35 (by decide))
  have her : fbm ((1000 : ℝ) * 0.020 + 9.1) ((1000 : ℝ) * 0.020 - 2.7)
      2 2.0 0.55 = 1 := by
    rw [show ((1000 : ℝ) * 0.020 + 9.1) = 29.1 from by norm_num,
      show ((1000 : ℝ) * 0.020 - 2.7) = 17.3 from by norm_num]
    exact fbm2_ones n291 n582
  simp only [heightMountains, cfgM]
  rw [hpb, hrA, hrB, hcr, her]
  norm_num [clamp01, softClamp, lerp, max_def, min_def]

/-! ## src/world/objects.js — deterministic object / POI spawner -/

/-- Integer range `[a..b]` (empty when `b < a`), the shape of every JS
`for (let i = a; i <= b; i++)` loop below; `flatMap` over it preserves the
push order of the source. -/
def rangeInt (a b : ℤ) : List ℤ :=
  (List.range (b + 1 - a).toNat).map (fun n => a + (n : ℤ))

/-- Integer range `[a, a+2, ..]` up to `b`, for the `dx += 2` loops of the
temple-style ruin. -/
def rangeInt2 (a b : ℤ) : List ℤ :=
  (rangeInt a b).filter (fun n => (n - a) % 2 = 0)

/-- One voxel block of an object, as pushed by objects.js
(`{x, y, z, type}`). -/
structure Block where
  x : ℤ
  y : ℤ
  z : ℤ
  type : String
deriving DecidableEq

noncomputable section

/-- `h01` from src/world/objects.js: hash2D rescaled from [-1..1] to
[0..1].  Every call site passes integer arguments. -/
def h01 (x z : ℤ) : ℝ := hash2DR x z * 0.5 + 0.5

/-- `nearSpawnBoost` from src/world/objects.js. -/
def nearSpawnBoost (worldX worldZ : ℤ) : ℝ :=
  let d := Real.sqrt ((worldX : ℝ) * worldX + (worldZ : ℝ) * worldZ)
  if d < 70 then 1.0 else if d < 140 then 0.55 else 0.0

/-- `cellId` from src/world/objects.js. -/
def cellId (x z cell : ℤ) : ℤ × ℤ :=
  (⌊(x : ℝ) / (cell : ℝ)⌋, ⌊(z : ℝ) / (cell : ℝ)⌋)

/-- `cellCenter` from src/world/objects.js (`cell >> 1` is floor division
by two; `cell` is always the positive constant 72). -/
def cellCenter (cx cz cell : ℤ) : ℤ × ℤ :=
  let ox := ⌊(h01 (cx * 1337 + 11) (cz * 733 + 17) - 0.5) * ((cell : ℝ) * 0.55)⌋
  let oz := ⌊(h01 (cx * 911 + 29) (cz * 1709 + 31) - 0.5) * ((cell : ℝ) * 0.55)⌋
  (cx * cell + cell / 2 + ox, cz * cell + cell / 2 + oz)

/-- JS `%` on numbers (remainder); the one call site below
(`addIceFormation`) applies it to a non-negative value, where JS
truncation agrees with flooring. -/
def jsMod (a b : ℝ) : ℝ := a - b * ⌊a / b⌋

/-- `addRuin` from src/world/objects.js: the three ruin styles (ring with
pillars / stepped pyramid / temple), returning the blocks it pushes, in
push order. -/
def addRuin (x y z radius height : ℤ) : List Block :=
  let ruinStyle := ⌊h01 (x * 37) (z * 53) * 3⌋
  if ruinStyle = 0 then
    ((rangeInt (-radius - 1) (radius + 1)).flatMap (fun dx =>
      (rangeInt (-radius - 1) (radius + 1)).flatMap (fun dz =>
        if Real.sqrt ((dx : ℝ) * dx + (dz : ℝ) * dz) ≤ (radius : ℝ) + 1 then
          [(⟨x + dx, y, z + dz, "ruinDark"⟩ : Block)] else [])))
    ++ ((rangeInt (-radius) radius).flatMap (fun dx =>
      (rangeInt (-radius) radius).flatMap (fun dz =>
        let d := Real.sqrt ((dx : ℝ) * dx + (dz : ℝ) * dz)
        if (radius : ℝ) - 1 < d ∧ d ≤ (radius : ℝ) then
          let wallHeight := 1 + ⌊h01 (x + dx * 3) (z + dz * 5) * 2⌋
          ((rangeInt 1 wallHeight).map (fun i =>
            (⟨x + dx, y + i, z + dz, "ruin"⟩ : Block)))
          ++ (if 0.7 < h01 (x + dx * 7) (z + dz * 11) then
              [(⟨x + dx, y + wallHeight + 1, z + dz, "ruinOrnate"⟩ : Block)]
            else [])
        else [])))
    ++ (([(radius - 1, radius - 1), (-(radius - 1), radius - 1),
          (radius - 1, -(radius - 1)), (-(radius - 1), -(radius - 1))] :
        List (ℤ × ℤ)).flatMap (fun c =>
      let dx := c.1
      let dz := c.2
      let ht := height - ⌊h01 (x + dx) (z + dz) * 2⌋
      ((rangeInt (-1) 1).flatMap (fun pdx =>
        (rangeInt (-1) 1).flatMap (fun pdz =>
          if |pdx| + |pdz| ≤ 1 then
            [(⟨x + dx + pdx, y + 1, z + dz + pdz, "ruin"⟩ : Block)] else [])))
      ++ ((rangeInt 2 ht).flatMap (fun i =>
          [(⟨x + dx, y + i, z + dz, "ruin"⟩ : Block)]
          ++ (if i % 3 = 0 then
              [(⟨x + dx + 1, y + i, z + dz, "ruinOrnate"⟩ : Block),
               ⟨x + dx - 1, y + i, z + dz, "ruinOrnate"⟩,
               ⟨x + dx, y + i, z + dz + 1, "ruinOrnate"⟩,
               ⟨x + dx, y + i, z + dz - 1, "ruinOrnate"⟩] else [])))
      ++ [(⟨x + dx, y + ht + 1, z + dz, "ruinAccent"⟩ : Block)]))
    ++ (if 4 ≤ radius then
        let centerHeight := ⌊(height : ℝ) * 0.7⌋
        let centerRadius := ⌊(radius : ℝ) * 0.4⌋
        ((rangeInt (-centerRadius) centerRadius).flatMap (fun dx =>
          (rangeInt (-centerRadius) centerRadius).flatMap (fun dz =>
            if dx * dx + dz * dz ≤ centerRadius * centerRadius then
              [(⟨x + dx, y + 1, z + dz, "ruinDark"⟩ : Block)] else [])))
        ++ ((rangeInt 2 centerHeight).map (fun i =>
            (⟨x, y + i, z, "ruin"⟩ : Block)))
        ++ [(⟨x, y + centerHeight + 1, z, "artifactGlow"⟩ : Block)]
      else [])
  else if ruinStyle = 1 then
    let maxRadius := radius + 1
    let levels := 3 + ⌊h01 (x * 19) (z * 23) * 3⌋
    ((rangeInt 0 (levels - 1)).flatMap (fun level =>
      let levelRadius := maxRadius - level
      let levelY := y + level
      (rangeInt (-levelRadius) levelRadius).flatMap (fun dx =>
        (rangeInt (-levelRadius) levelRadius).flatMap (fun dz =>
          let blockType := if level = 0 then "ruinDark"
            else if level = levels - 1 then "ruinOrnate" else "ruin"
          [(⟨x + dx, levelY, z + dz, blockType⟩ : Block)]))))
    ++ (let topY := y + levels
        let centerHeight := 2 + ⌊h01 (x * 31) (z * 37) * 3⌋
        ((rangeInt 0 (centerHeight - 1)).map (fun i =>
          (⟨x, topY + i, z, "ruin"⟩ : Block)))
        ++ [(⟨x, topY + centerHeight, z, "ruinAccent"⟩ : Block)])
    ++ ((rangeInt 0 (levels - 2)).flatMap (fun level =>
        let levelRadius := maxRadius - level
        let levelY := y + level + 1
        ([(levelRadius, levelRadius), (-levelRadius, levelRadius),
          (levelRadius, -levelRadius), (-levelRadius, -levelRadius)] :
          List (ℤ × ℤ)).flatMap (fun c =>
          if 0.4 < h01 (x + c.1 * 7) (z + c.2 * 11) then
            [(⟨x + c.1, levelY, z + c.2, "ruinOrnate"⟩ : Block)] else [])))
  else
    ((rangeInt (-radius - 1) (radius + 1)).flatMap (fun dx =>
      (rangeInt (-radius - 1) (radius + 1)).flatMap (fun dz =>
        if |dx| ≤ radius ∧ |dz| ≤ radius then
          [(⟨x + dx, y, z + dz, "ruinDark"⟩ : Block)] else [])))
    ++ ((rangeInt (-radius) radius).flatMap (fun dx =>
      (rangeInt (-radius) radius).flatMap (fun dz =>
        if |dx| = radius ∨ |dz| = radius then
          let wallHeight := 3 + ⌊h01 (x + dx * 5) (z + dz * 7) * 2⌋
          ((rangeInt 1 wallHeight).map (fun i =>
            (⟨x + dx, y + i, z + dz, "ruin"⟩ : Block)))
          ++ (if 0.6 < h01 (x + dx * 13) (z + dz * 17) then
              [(⟨x + dx, y + wallHeight + 1, z + dz, "ruinOrnate"⟩ : Block)]
            else [])
        else [])))
    ++ (let innerRadius := radius - 2
        if 2 ≤ innerRadius then
          let columnPositions :=
            (rangeInt2 (-innerRadius + 1) (innerRadius - 1)).flatMap (fun dx =>
              (rangeInt2 (-innerRadius + 1) (innerRadius - 1)).flatMap (fun dz =>
                if dx ≠ 0 ∨ dz ≠ 0 then [((dx, dz) : ℤ × ℤ)] else []))
          (columnPositions.flatMap (fun c =>
            let columnHeight := 4 + ⌊h01 (x + c.1 * 11) (z + c.2 * 13) * 2⌋
            ((rangeInt 1 columnHeight).map (fun i =>
              (⟨x + c.1, y + i, z + c.2, "ruin"⟩ : Block)))
            ++ [(⟨x + c.1, y + columnHeight + 1, z + c.2, "ruinOrnate"⟩ : Block)]))
          ++ (let centerHeight := 2 + ⌊h01 (x * 29) (z * 31) * 3⌋
              ((rangeInt (-1) 1).flatMap (fun dx =>
                (rangeInt (-1) 1).flatMap (fun dz =>
                  [(⟨x + dx, y + 1, z + dz, "ruinDark"⟩ : Block)])))
              ++ ((rangeInt 2 centerHeight).map (fun i =>
                  (⟨x, y + i, z, "ruin"⟩ : Block)))
              ++ [(⟨x, y + centerHeight + 1, z, "artifactGlow"⟩ : Block)])
        else [])

/-- `addSpire` from src/world/objects.js: the three spire styles (classic
tapered / crystalline tech / obelisk), in push order. -/
def addSpire (x y z height : ℤ) : List Block :=
  let spireStyle := ⌊h01 (x * 41) (z * 59) * 3⌋
  if spireStyle = 0 then
    let baseRadius : ℤ := 2
    ((rangeInt (-baseRadius) baseRadius).flatMap (fun dx =>
      (rangeInt (-baseRadius) baseRadius).flatMap (fun dz =>
        if Real.sqrt ((dx : ℝ) * dx + (dz : ℝ) * dz) ≤ (baseRadius : ℝ) then
          [(⟨x + dx, y, z + dz, "spireBase"⟩ : Block)] else [])))
    ++ ((rangeInt 1 height).flatMap (fun i =>
        [(⟨x, y + i, z, "spire"⟩ : Block)]
        ++ (let layerRadius :=
              max 0 ⌊(baseRadius : ℝ) * (1 - (i : ℝ) / (height : ℝ))⌋
            if i % 4 = 0 ∨ i = 1 ∨ i = height then
              (rangeInt (-layerRadius) layerRadius).flatMap (fun dx =>
                (rangeInt (-layerRadius) layerRadius).flatMap (fun dz =>
                  if (dx ≠ 0 ∨ dz ≠ 0) ∧ |dx| + |dz| ≤ layerRadius then
                    [(⟨x + dx, y + i, z + dz, "spire"⟩ : Block)] else []))
            else [])
        ++ (if i % 3 = 0 then
            [(⟨x, y + i, z + 1, "spireGlow"⟩ : Block),
             ⟨x, y + i, z - 1, "spireGlow"⟩,
             ⟨x + 1, y + i, z, "spireGlow"⟩,
             ⟨x - 1, y + i, z, "spireGlow"⟩] else [])))
    ++ [(⟨x, y + height + 1, z, "spireTop"⟩ : Block),
        ⟨x, y + height + 2, z, "beacon"⟩]
    ++ (let floatingElements := 3 + ⌊h01 (x * 13) (z * 17) * 3⌋
        (rangeInt 0 (floatingElements - 1)).flatMap (fun i =>
          let angle := ((i : ℝ) / (floatingElements : ℝ)) * Real.pi * 2
          let radius := 2 + ⌊h01 (x + i * 19) (z + i * 23) * 2⌋
          let fx := x + round (Real.cos angle * (radius : ℝ))
          let fz := z + round (Real.sin angle * (radius : ℝ))
          let fy := y + height - ⌊(height : ℝ) * 0.2⌋ + ⌊h01 fx fz * 3⌋
          [(⟨fx, fy, fz, "spireGlow"⟩ : Block)]))
  else if spireStyle = 1 then
    ((rangeInt (-2) 2).flatMap (fun dx =>
      (rangeInt (-2) 2).flatMap (fun dz =>
        if |dx| + |dz| ≤ 3 then
          [(⟨x + dx, y, z + dz, "spireBase"⟩ : Block)] else [])))
    ++ ((rangeInt 1 height).flatMap (fun i =>
        [(⟨x, y + i, z, "spire"⟩ : Block)]
        ++ (if i % 3 = 0 then
            ((rangeInt 1 2).flatMap (fun d =>
              [(⟨x + d, y + i, z, "spire"⟩ : Block),
               ⟨x - d, y + i, z, "spire"⟩,
               ⟨x, y + i, z + d, "spire"⟩,
               ⟨x, y + i, z - d, "spire"⟩]))
            ++ [(⟨x + 1, y + i, z + 1, "spireGlow"⟩ : Block),
                ⟨x - 1, y + i, z - 1, "spireGlow"⟩,
                ⟨x + 1, y + i, z - 1, "spireGlow"⟩,
                ⟨x - 1, y + i, z + 1, "spireGlow"⟩]
          else if i % 5 = 0 then
            (rangeInt 1 2).flatMap (fun d =>
              if d = 1 then
                [(⟨x + d, y + i, z, "spireGlow"⟩ : Block),
                 ⟨x - d, y + i, z, "spireGlow"⟩,
                 ⟨x, y + i, z + d, "spireGlow"⟩,
                 ⟨x, y + i, z - d, "spireGlow"⟩]
              else
                [(⟨x + d, y + i, z, "spire"⟩ : Block),
                 ⟨x - d, y + i, z, "spire"⟩,
                 ⟨x, y + i, z + d, "spire"⟩,
                 ⟨x, y + i, z - d, "spire"⟩])
          else [])))
    ++ (let topHeight := 3 + ⌊h01 (x * 23) (z * 29) * 3⌋
        ((rangeInt 1 topHeight).flatMap (fun i =>
          [(⟨x, y + height + i, z, "spireTop"⟩ : Block)]
          ++ (if i < topHeight then
              let radius := topHeight - i
              (rangeInt 0 3).flatMap (fun j =>
                let angle := ((j : ℝ) / 4) * Real.pi * 2
                let dx := round (Real.cos angle * (radius : ℝ))
                let dz := round (Real.sin angle * (radius : ℝ))
                [(⟨x + dx, y + height + i, z + dz, "spireGlow"⟩ : Block)])
            else [])))
        ++ [(⟨x, y + height + topHeight + 1, z, "beacon"⟩ : Block)])
  else
    ((rangeInt (-2) 2).flatMap (fun dx =>
      (rangeInt (-2) 2).flatMap (fun dz =>
        let d := |dx| + |dz|
        if d ≤ 3 then
          [(⟨x + dx, y, z + dz, "spireBase"⟩ : Block)]
          ++ (if d ≤ 1 ∧ 0.5 < h01 (x + dx * 7) (z + dz * 11) then
              [(⟨x + dx, y + 1, z + dz, "spireBase"⟩ : Block)] else [])
        else [])))
    ++ (let width := 1 + ⌊h01 (x * 31) (z * 37) * 2⌋
        (rangeInt 1 height).flatMap (fun i =>
          let currentWidth :=
            if (height : ℝ) * 0.8 < (i : ℝ) then 0 else width
          ((rangeInt (-currentWidth) currentWidth).flatMap (fun dx =>
            (rangeInt (-currentWidth) currentWidth).flatMap (fun dz =>
              [(⟨x + dx, y + i, z + dz, "spire"⟩ : Block)])))
          ++ (if i % 4 = 0 ∨ i = ⌊(height : ℝ) / 2⌋ then
              if 0 < currentWidth then
                ([(currentWidth, 0), (-currentWidth, 0), (0, currentWidth),
                  (0, -currentWidth)] : List (ℤ × ℤ)).map (fun c =>
                  (⟨x + c.1, y + i, z + c.2, "spireGlow"⟩ : Block))
              else [(⟨x, y + i, z, "spireGlow"⟩ : Block)]
            else [])))
    ++ [(⟨x, y + height + 1, z, "spireTop"⟩ : Block),
        ⟨x, y + height + 2, z, "beacon"⟩]

/-- `addCrystalCluster` from src/world/objects.js: the three crystal
formation styles (diverse cluster / geometric / grotto), in push order. -/
def addCrystalCluster (x y z : ℤ) (seed : ℝ) : List Block :=
  let crystalStyle := ⌊h01 (x * 43) (z * 61) * 3⌋
  if crystalStyle = 0 then
    let baseRadius := 2 + ⌊seed * 2⌋
    ((rangeInt (-baseRadius) baseRadius).flatMap (fun dx =>
      (rangeInt (-baseRadius) baseRadius).flatMap (fun dz =>
        if Real.sqrt ((dx : ℝ) * dx + (dz : ℝ) * dz) ≤ (baseRadius : ℝ) ∧
            0.3 < h01 (x + dx * 5) (z + dz * 7) then
          [(⟨x + dx, y, z + dz, "crystal"⟩ : Block)] else [])))
    ++ (let count := 6 + ⌊seed * 8⌋
        (rangeInt 0 (count - 1)).flatMap (fun i =>
          let angle := ((i : ℝ) / (count : ℝ)) * Real.pi * 2 + seed * 0.5
          let distance := ⌊h01 (x + i * 17) (z + i * 19) * (baseRadius : ℝ) * 1.5⌋
          let dx := round (Real.cos angle * (distance : ℝ))
          let dz := round (Real.sin angle * (distance : ℝ))
          let ht := 3 + ⌊h01 (x + dx * 3) (z + dz * 5) * 12⌋
          let typeRoll := h01 (x + dx * 7) (z + dz * 9)
          let ty := if typeRoll < 0.3 then "crystal"
            else if typeRoll < 0.6 then "crystal2"
            else if typeRoll < 0.8 then "crystalRed" else "crystalGreen"
          ((rangeInt 1 ht).flatMap (fun h =>
            [(⟨x + dx, y + h, z + dz, ty⟩ : Block)]
            ++ (if h % 3 = 0 ∧ h < ht - 1 ∧
                  0.6 < h01 (x + dx * 11) (z + dz * 13) then
                let armAngle := h01 (x + dx * h) (z + dz * h) * Real.pi * 2
                let armDx := round (Real.cos armAngle)
                let armDz := round (Real.sin armAngle)
                [(⟨x + dx + armDx, y + h, z + dz + armDz, ty⟩ : Block)]
              else [])))
          ++ [(⟨x + dx, y + ht + 1, z + dz, "crystalCore"⟩ : Block)]))
    ++ (let centerHeight := 5 + ⌊seed * 10⌋
        ((rangeInt 1 centerHeight).flatMap (fun h =>
          [(⟨x, y + h, z, "crystal2"⟩ : Block)]
          ++ (if h % 2 = 0 ∧ h < centerHeight then
              (rangeInt 0 3).flatMap (fun j =>
                let angle := ((j : ℝ) / 4) * Real.pi * 2
                let armDx := round (Real.cos angle)
                let armDz := round (Real.sin angle)
                [(⟨x + armDx, y + h, z + armDz, "crystal2"⟩ : Block)])
            else [])))
        ++ [(⟨x, y + centerHeight + 1, z, "glow"⟩ : Block)])
  else if crystalStyle = 1 then
    ((rangeInt (-3) 3).flatMap (fun dx =>
      (rangeInt (-3) 3).flatMap (fun dz =>
        if |dx| + |dz| ≤ 4 then
          [(⟨x + dx, y, z + dz, "crystal"⟩ : Block)] else [])))
    ++ (let centerHeight := 8 + ⌊seed * 8⌋
        ((rangeInt 1 centerHeight).flatMap (fun h =>
          [(⟨x, y + h, z, "crystal"⟩ : Block)]
          ++ (let layer := ⌊(h : ℝ) / 3⌋
              if 0 < layer ∧ layer < 4 then
                let extent := 4 - layer
                (rangeInt 1 extent).flatMap (fun e =>
                  let layerType := if layer % 2 = 0 then "crystal" else "crystal2"
                  [(⟨x + e, y + h, z, layerType⟩ : Block),
                   ⟨x - e, y + h, z, layerType⟩,
                   ⟨x, y + h, z + e, layerType⟩,
                   ⟨x, y + h, z - e, layerType⟩])
              else [])))
        ++ [(⟨x, y + centerHeight + 1, z, "crystalCore"⟩ : Block)])
    ++ (let surroundCount := 6 + ⌊seed * 6⌋
        (rangeInt 0 (surroundCount - 1)).flatMap (fun i =>
          let angle := ((i : ℝ) / (surroundCount : ℝ)) * Real.pi * 2
          let distance := 3 + ⌊h01 (x + i * 23) (z + i * 29) * 2⌋
          let dx := round (Real.cos angle * (distance : ℝ))
          let dz := round (Real.sin angle * (distance : ℝ))
          let ty := if i % 3 = 0 then "crystalRed"
            else if i % 3 = 1 then "crystalGreen" else "crystal2"
          let ht := 2 + ⌊h01 (x + dx * 13) (z + dz * 17) * 5⌋
          ((rangeInt 1 ht).map (fun h =>
            (⟨x + dx, y + h, z + dz, ty⟩ : Block)))
          ++ [(⟨x + dx, y + ht + 1, z + dz, "crystalCore"⟩ : Block)]))
  else
    let baseRadius : ℤ := 4
    ((rangeInt (-baseRadius) baseRadius).flatMap (fun dx =>
      (rangeInt (-baseRadius) baseRadius).flatMap (fun dz =>
        if Real.sqrt ((dx : ℝ) * dx + (dz : ℝ) * dz) ≤ (baseRadius : ℝ) then
          let floorType := if h01 (x + dx * 3) (z + dz * 5) < 0.7 then
            "crystal" else "crystal2"
          [(⟨x + dx, y, z + dz, floorType⟩ : Block)] else [])))
    ++ (let stalagmiteCount := 8 + ⌊seed * 7⌋
        (rangeInt 0 (stalagmiteCount - 1)).flatMap (fun i =>
          let angle := ((i : ℝ) / (stalagmiteCount : ℝ)) * Real.pi * 2
          let distance := ⌊h01 (x + i * 19) (z + i * 23) * (baseRadius : ℝ) * 0.9⌋
          let dx := round (Real.cos angle * (distance : ℝ))
          let dz := round (Real.sin angle * (distance : ℝ))
          let typeRoll := h01 (x + dx * 11) (z + dz * 13)
          let ty := if typeRoll < 0.3 then "crystal"
            else if typeRoll < 0.6 then "crystal2"
            else if typeRoll < 0.8 then "crystalRed" else "crystalGreen"
          let ht := 2 + ⌊h01 (x + dx * 7) (z + dz * 11) * 6⌋
          ((rangeInt 1 ht).flatMap (fun h =>
            [(⟨x + dx, y + h, z + dz, ty⟩ : Block)]
            ++ (if h ≤ 2 ∧ 0.6 < h01 (x + dx * h) (z + dz * h) then
                let branchAngle := h01 (x + dx * h * 3) (z + dz * h * 5) *
                  Real.pi * 2
                let branchDx := round (Real.cos branchAngle)
                let branchDz := round (Real.sin branchAngle)
                [(⟨x + dx + branchDx, y + h, z + dz + branchDz, ty⟩ : Block)]
              else [])))
          ++ (if 0.6 < h01 (x + dx * 17) (z + dz * 19) then
              [(⟨x + dx, y + ht + 1, z + dz, "crystalCore"⟩ : Block)]
            else [])))
    ++ (let centerHeight := 6 + ⌊seed * 5⌋
        let centerType := if h01 x z < 0.5 then "crystal" else "crystal2"
        ((rangeInt 1 centerHeight).flatMap (fun h =>
          [(⟨x, y + h, z, centerType⟩ : Block)]
          ++ (if h % 2 = 0 ∧ h < centerHeight - 1 then
              (rangeInt 0 2).flatMap (fun j =>
                let angle := ((j : ℝ) / 3) * Real.pi * 2 + (h : ℝ) * 0.3
                let branchDx := round (Real.cos angle)
                let branchDz := round (Real.sin angle)
                [(⟨x + branchDx, y + h, z + branchDz, centerType⟩ : Block)]
                ++ (if 0.6 < h01 (x + branchDx * h) (z + branchDz * h) then
                    [(⟨x + branchDx * 2, y + h, z + branchDz * 2,
                      centerType⟩ : Block)]
                  else []))
            else [])))
        ++ [(⟨x, y + centerHeight + 1, z, "glow"⟩ : Block)])

/-- `addIceFormation` from src/world/objects.js: glacier sheet / ice
crystals / ice cave, chosen by `floor((seed * 100) % 3)`, in push order. -/
def addIceFormation (x y z : ℤ) (seed : ℝ) : List Block :=
  let formationType := ⌊jsMod (seed * 100) 3⌋
  if formationType = 0 then
    let width := 4 + ⌊seed * 3⌋
    let height := 3 + ⌊seed * 4⌋
    ((rangeInt (-width) width).flatMap (fun dx =>
      (rangeInt (-width) width).flatMap (fun dz =>
        let dist := Real.sqrt ((dx : ℝ) * dx + (dz : ℝ) * dz)
        if dist ≤ (width : ℝ) then
          if (width : ℝ) - 1 < dist ∧ h01 (x + dx) (z + dz) < 0.4 then []
          else
            let heightVar := ⌊h01 (x + dx * 3) (z + dz * 5) * 2⌋
            [(⟨x + dx, y + 1, z + dz, "iceSpire"⟩ : Block)]
            ++ (if dist < (width : ℝ) - 1 then
                [(⟨x + dx, y + 2, z + dz, "iceSpire"⟩ : Block)]
                ++ (if dist < (width : ℝ) / 2 then
                    (rangeInt 3 (height + heightVar)).flatMap (fun h =>
                      if dist < (width : ℝ) / 2 - ((h : ℝ) - 3) then
                        [(⟨x + dx, y + h, z + dz, "iceSpire"⟩ : Block)]
                      else [])
                  else [])
              else [])
        else [])))
    ++ ((rangeInt 0 2).flatMap (fun i =>
        let dx := ⌊(h01 (x + i * 17) (z + i * 23) - 0.5) * ((width : ℝ) / 2)⌋
        let dz := ⌊(h01 (x + i * 31) (z + i * 13) - 0.5) * ((width : ℝ) / 2)⌋
        let h := height + ⌊h01 (x + dx) (z + dz) * 2⌋
        [(⟨x + dx, y + h, z + dz, "iceCore"⟩ : Block)]))
  else if formationType = 1 then
    let centerHeight := 5 + ⌊seed * 7⌋
    ((rangeInt 1 centerHeight).flatMap (fun i =>
      [(⟨x, y + i, z, "iceSpire"⟩ : Block)]
      ++ (let layer := ⌊(i : ℝ) / 2⌋
          if 0 < layer ∧ layer < 4 then
            let extent := 4 - layer
            (rangeInt 1 extent).flatMap (fun e =>
              [(⟨x + e, y + i, z, "iceSpire"⟩ : Block),
               ⟨x - e, y + i, z, "iceSpire"⟩,
               ⟨x, y + i, z + e, "iceSpire"⟩,
               ⟨x, y + i, z - e, "iceSpire"⟩])
          else [])))
    ++ [(⟨x, y + centerHeight + 1, z, "iceCore"⟩ : Block)]
    ++ (let crystalCount := 3 + ⌊seed * 4⌋
        (rangeInt 0 (crystalCount - 1)).flatMap (fun c =>
          let angle := ((c : ℝ) / (crystalCount : ℝ)) * Real.pi * 2
          let dist := 3 + ⌊h01 (x + c * 19) (z + c * 23) * 2⌋
          let cx := x + round (Real.cos angle * (dist : ℝ))
          let cz := z + round (Real.sin angle * (dist : ℝ))
          let height2 := 2 + ⌊h01 cx cz * 4⌋
          ((rangeInt 1 height2).flatMap (fun i =>
            [(⟨cx, y + i, cz, "iceSpire"⟩ : Block)]
            ++ (if i = ⌊(height2 : ℝ) / 2⌋ ∧ 0.5 < h01 (cx * 3) (cz * 5) then
                [(⟨cx + 1, y + i, cz, "iceSpire"⟩ : Block),
                 ⟨cx, y + i, cz + 1, "iceSpire"⟩]
              else [])))
          ++ (if 0.6 < h01 (cx * 7) (cz * 11) then
              [(⟨cx, y + height2 + 1, cz, "iceCore"⟩ : Block)]
            else [])))
  else
    let width := 3 + ⌊seed * 3⌋
    let height := 4 + ⌊seed * 6⌋
    ((rangeInt (-width) width).flatMap (fun dx =>
      (rangeInt (-width) width).flatMap (fun dz =>
        let dist := Real.sqrt ((dx : ℝ) * dx + (dz : ℝ) * dz)
        if dist ≤ (width : ℝ) then
          [(⟨x + dx, y + 1, z + dz, "iceSpire"⟩ : Block)]
          ++ (if dist ≤ (width : ℝ) - 0.5 then
              [(⟨x + dx, y + 2, z + dz, "iceSpire"⟩ : Block)] else [])
          ++ ((rangeInt 3 height).flatMap (fun h =>
              if (width : ℝ) / 2 < dist ∧
                  dist ≤ (width : ℝ) - ((h : ℝ) / (height : ℝ)) then
                [(⟨x + dx, y + h, z + dz, "iceSpire"⟩ : Block)]
              else []))
          ++ (if dist ≤ (width : ℝ) - 1 ∧ 0.3 < h01 (x + dx * 5) (z + dz * 7) then
              [(⟨x + dx, y + height + 1, z + dz, "iceSpire"⟩ : Block)]
            else [])
        else [])))
    ++ ((rangeInt 0 1).flatMap (fun i =>
        let dx := ⌊(h01 (x + i * 29) (z + i * 41) - 0.5) * ((width : ℝ) - 1)⌋
        let dz := ⌊(h01 (x + i * 37) (z + i * 19) - 0.5) * ((width : ℝ) - 1)⌋
        [(⟨x + dx, y + height + 1, z + dz, "iceCore"⟩ : Block)]))
    ++ (let spikeCount := 2 + ⌊seed * 3⌋
        (rangeInt 0 (spikeCount - 1)).flatMap (fun s =>
          let dx := ⌊(h01 (x + s * 13) (z + s * 17) - 0.5) * (width : ℝ) / 2⌋
          let dz := ⌊(h01 (x + s * 23) (z + s * 11) - 0.5) * (width : ℝ) / 2⌋
          let spikeHeight := 2 + ⌊h01 (x + dx * 3) (z + dz * 5) * 3⌋
          ((rangeInt 1 spikeHeight).map (fun h =>
            (⟨x + dx, y + h, z + dz, "iceSpire"⟩ : Block)))
          ++ (let dx2 := ⌊(h01 (x + s * 31) (z + s * 43) - 0.5) * (width : ℝ) / 2⌋
              let dz2 := ⌊(h01 (x + s * 47) (z + s * 29) - 0.5) * (width : ℝ) / 2⌋
              let spikeHeight2 := 1 + ⌊h01 (x + dx2 * 7) (z + dz2 * 3) * 2⌋
              (rangeInt 0 (spikeHeight2 - 1)).map (fun h =>
                (⟨x + dx2, y + height + 1 - h, z + dz2, "iceSpire"⟩ : Block)))))

/-- The coarse-POI section of `getTreeAt` (objects.js lines 906–960): only
the single deterministic anchor column of the 72-cell can yield `some`;
`none` means the POI path did not return and control falls through to the
ambient props.  Truthiness of a probability entry
(`objectProbs.ruin && ...`) is `≠ 0` for the spec-modelled numeric
fields. -/
def poiBlocks (cfg : WorldConfig) (biome : Biome)
    (worldX worldZ terrainH : ℤ) : Option (List Block) :=
  let CELL : ℤ := 72
  let cid := cellId worldX worldZ CELL
  let c := cellCenter cid.1 cid.2 CELL
  if worldX = c.1 ∧ worldZ = c.2 then
    let p := h01 (cid.1 * 5011 + 7) (cid.2 * 9011 + 19)
    let spawnBoost := nearSpawnBoost worldX worldZ
    let threshold := 0.80 - spawnBoost * 0.28
    if threshold < p then
      let objectProbs := biome.objectProbabilities
      let ice := getIceFactor cfg (worldX : ℝ) (worldZ : ℝ) (terrainH : ℝ)
      if 0.55 < ice ∧ 0.35 < h01 (cid.1 * 701 + 3) (cid.2 * 1109 + 9) then
        some (addIceFormation worldX terrainH worldZ p)
      else
        let rand := h01 (cid.1 * 133 + 17) (cid.2 * 277 + 23)
        if objectProbs.ruin ≠ 0 ∧ rand < objectProbs.ruin then
          some (addRuin worldX (terrainH + 1) worldZ
            (3 + ⌊h01 (cid.1 * 19) (cid.2 * 29) * 3⌋)
            (4 + ⌊h01 (cid.1 * 31) (cid.2 * 41) * 5⌋))
        else if objectProbs.spire ≠ 0 ∧
            rand < objectProbs.ruin + objectProbs.spire then
          some (addSpire worldX terrainH worldZ
            (10 + ⌊h01 (cid.1 * 47) (cid.2 * 59) * 14⌋))
        else if objectProbs.crystal ≠ 0 ∧
            rand < objectProbs.ruin + objectProbs.spire +
              objectProbs.crystal then
          some (addCrystalCluster worldX terrainH worldZ p)
        else if objectProbs.crystal_cluster ≠ 0 ∧
            rand < objectProbs.ruin + objectProbs.spire +
              objectProbs.crystal + objectProbs.crystal_cluster then
          some (addCrystalCluster worldX terrainH worldZ p)
        else if objectProbs.monolith ≠ 0 then
          let mheight := 8 + ⌊h01 (cid.1 * 61) (cid.2 * 73) * 12⌋
          some (((rangeInt 1 mheight).map (fun i =>
              (⟨worldX, terrainH + i, worldZ, "monolith"⟩ : Block)))
            ++ [(⟨worldX, terrainH + mheight + 1, worldZ,
                "monolithGlow"⟩ : Block)])
        else some []
    else none
  else none

/-- The ambient-props section of `getTreeAt` (the biome-specific small
vegetation after the POI block); `none` is the JS `return null`. -/
def ambientAt (biome : Biome) (worldX worldZ terrainH : ℤ) :
    Option (List Block) :=
  let a := h01 (worldX * 3) (worldZ * 3)
  let spawnBoost := nearSpawnBoost worldX worldZ
  let biomeDensity : ℝ :=
    if biome.id = "fungal_marsh" ∨ biome.id = "alien_forest" then 0.06
    else 0.035
  let prob := biomeDensity + spawnBoost * 0.04
  if a < prob then
    let kind := h01 (worldX * 11 + 9) (worldZ * 13 - 7)
    if biome.id = "alien_forest" then
      some (
        if kind < 0.6 then
          let hgt := 2 + ⌊h01 (worldX * 17) (worldZ * 19) * 3⌋
          ((rangeInt 1 hgt).map (fun i =>
            (⟨worldX, terrainH + i, worldZ, "tree_trunk"⟩ : Block)))
          ++ [(⟨worldX, terrainH + hgt + 1, worldZ, "tree_canopy"⟩ : Block)]
        else
          [(⟨worldX, terrainH + 1, worldZ, "shrub"⟩ : Block)]
          ++ (if h01 (worldX + 1) (worldZ - 1) < 0.4 then
              [(⟨worldX + 1, terrainH + 1, worldZ, "shrub"⟩ : Block)]
            else []))
    else if biome.id = "fungal_marsh" then
      some (
        if kind < 0.7 then
          [(⟨worldX, terrainH + 1, worldZ, "mushroom"⟩ : Block),
           ⟨worldX, terrainH + 2, worldZ, "mushroom"⟩]
          ++ (if h01 (worldX * 23) (worldZ * 29) < 0.3 then
              [(⟨worldX + 1, terrainH + 1, worldZ, "mushroom"⟩ : Block),
               ⟨worldX, terrainH + 1, worldZ + 1, "mushroom"⟩]
            else [])
        else [(⟨worldX, terrainH + 1, worldZ, "mushroomGlow"⟩ : Block)])
    else if biome.id = "crystalline_plains" then
      some (
        if kind < 0.6 then
          [(⟨worldX, terrainH + 1, worldZ, "crystal"⟩ : Block)]
          ++ (if h01 (worldX * 31) (worldZ * 37) < 0.3 then
              [(⟨worldX, terrainH + 2, worldZ, "crystal"⟩ : Block)]
            else [])
        else [(⟨worldX, terrainH + 1, worldZ, "crystal2"⟩ : Block)])
    else if biome.id = "crimson_desert" then
      some (
        if kind < 0.7 then
          [(⟨worldX, terrainH + 1, worldZ, "shrubRed"⟩ : Block)]
        else [(⟨worldX, terrainH + 1, worldZ, "monolith"⟩ : Block)])
    else if biome.id = "glacial_fields" then
      some (
        if kind < 0.8 then
          [(⟨worldX, terrainH + 1, worldZ, "iceSpire"⟩ : Block)]
          ++ (if h01 (worldX * 41) (worldZ * 43) < 0.4 then
              [(⟨worldX, terrainH + 2, worldZ, "iceSpire"⟩ : Block)]
            else [])
        else [(⟨worldX, terrainH + 1, worldZ, "iceCore"⟩ : Block)])
    else
      some (
        if kind < 0.65 then
          [(⟨worldX, terrainH + 1, worldZ, "shrub"⟩ : Block)]
          ++ (if h01 (worldX + 1) (worldZ - 1) < 0.25 then
              [(⟨worldX + 1, terrainH + 1, worldZ, "shrub"⟩ : Block)]
            else [])
        else
          [(⟨worldX, terrainH + 1, worldZ, "mushroom"⟩ : Block),
           ⟨worldX, terrainH + 2, worldZ, "mushroom"⟩])
  else none

/-- `getTreeAt` from src/world/objects.js: the main dispatcher.  The outer
`Option` is `none` exactly when the JS would crash dereferencing an
undefined biome (`biome.objectProbabilities` / `biome.id`); the inner
`Option` is the JS return value (`none` = `null`, `some bs` = a block
array, possibly empty). -/
def getTreeAt (cfg : WorldConfig) (worldX worldZ terrainH : ℤ) :
    Option (Option (List Block)) :=
  if (terrainH : ℝ) ≤ cfg.waterLevel + 1 then some none
  else if 0.65 < getRavineFactor (worldX : ℝ) (worldZ : ℝ) then some none
  else if 0.70 < getRiverFactor (worldX : ℝ) (worldZ : ℝ) then some none
  else
    match getBiomeAt cfg (worldX : ℝ) (worldZ : ℝ) with
    | none => none
    | some biome =>
      match poiBlocks cfg biome worldX worldZ terrainH with
      | some bs => some (some bs)
      | none => some (ambientAt biome worldX worldZ terrainH)

end

/-! ## Single-biome configurations: the whole pipeline collapses -/

/-- With a single registered biome named `"crystalline_plains"`, the scoring
loop's winner and the below-floor fallback coincide, so every cell is
classified `"crystalline_plains"` whatever the climate. -/
theorem pickTypeCore_single (cfg : WorldConfig) (b : Biome)
    (hov : cfg.ruinsOverlay = none) (hb : cfg.biomes = [b])
    (hid : b.id = "crystalline_plains") (c : Climate) (r pocket : ℝ) :
    pickTypeCore cfg c r pocket = "crystalline_plains" := by
  have hskip : ¬ skipBiome cfg b := by
    simp only [skipBiome, hov]
    exact not_false
  simp only [pickTypeCore, hb, List.foldl, List.head?, Option.map_some,
    Option.getD_some, if_neg hskip]
  split_ifs <;> simp [hid]

theorem pickTypeForCell_single (cfg : WorldConfig) (b : Biome)
    (hov : cfg.ruinsOverlay = none) (hb : cfg.biomes = [b])
    (hid : b.id = "crystalline_plains") (cx cz : ℤ) :
    pickTypeForCell cfg cx cz = "crystalline_plains" := by
  rw [pickTypeForCell_no_overlay cfg hov cx cz]
  exact pickTypeCore_single cfg b hov hb hid _ _ _

/-- The best-two scan preserves "every tracked candidate has type `t`". -/
theorem scan_all_type (t : String) :
    ∀ (l : List Cand) (st : Option Cand × Option Cand),
      (∀ c ∈ l, c.type = t) →
      (∀ c, st.1 = some c → c.type = t) →
      (∀ c, st.2 = some c → c.type = t) →
      (∀ c, (l.foldl scanStep st).1 = some c → c.type = t) ∧
      (∀ c, (l.foldl scanStep st).2 = some c → c.type = t)
  | [], st, _, h1, h2 => ⟨h1, h2⟩
  | c :: l, st, hall, h1, h2 => by
      have hc : c.type = t := hall c (List.mem_cons_self c l)
      have hall' : ∀ d ∈ l, d.type = t := fun d hd =>
        hall d (List.mem_cons_of_mem c hd)
      have hstep1 : ∀ d, (scanStep st c).1 = some d → d.type = t := by
        intro d hd
        unfold scanStep at hd
        rcases hst1 : st.1 with _ | a
        · rw [hst1] at hd
          simp only at hd
          obtain rfl := Option.some_injective _ hd
          exact hc
        · rw [hst1] at hd
          simp only at hd
          split_ifs at hd
          · obtain rfl := Option.some_injective _ hd
            exact hc
          · rcases hst2 : st.2 with _ | bb <;> rw [hst2] at hd <;>
              simp only at hd
            · obtain rfl := Option.some_injective _ hd
              exact h1 a hst1
            · split_ifs at hd <;>
                (obtain rfl := Option.some_injective _ hd; exact h1 a hst1)
      have hstep2 : ∀ d, (scanStep st c).2 = some d → d.type = t := by
        intro d hd
        unfold scanStep at hd
        rcases hst1 : st.1 with _ | a
        · rw [hst1] at hd
          simp only at hd
          exact h2 d hd
        · rw [hst1] at hd
          simp only at hd
          split_ifs at hd
          · obtain rfl := Option.some_injective _ hd
            exact h1 a hst1
          · rcases hst2 : st.2 with _ | bb <;> rw [hst2] at hd <;>
              simp only at hd
            · obtain rfl := Option.some_injective _ hd
              exact hc
            · split_ifs at hd
              · obtain rfl := Option.some_injective _ hd
                exact hc
              · obtain rfl := Option.some_injective _ hd
                exact h2 bb hst2
      exact scan_all_type t l (scanStep st c) hall' hstep1 hstep2

theorem scan_eq_type (t : String) (l : List Cand) (a? b? : Option Cand)
    (hall : ∀ c ∈ l, c.type = t)
    (hfold : l.foldl scanStep (none, none) = (a?, b?)) :
    (∀ c, a? = some c → c.type = t) ∧ (∀ c, b? = some c → c.type = t) := by
  have h := scan_all_type t l (none, none) hall
    (by intro c hc; simp at hc) (by intro c hc; simp at hc)
  rw [hfold] at h
  exact h

theorem nearestTwoCells_single (cfg : WorldConfig) (b : Biome)
    (hov : cfg.ruinsOverlay = none) (hb : cfg.biomes = [b])
    (hid : b.id = "crystalline_plains") (x z : ℝ) :
    (nearestTwoCells cfg x z).1.type = "crystalline_plains" ∧
    (nearestTwoCells cfg x z).2.type = "crystalline_plains" := by
  simp only [nearestTwoCells]
  split
  · next a bb hfold =>
      obtain ⟨ha, hbb⟩ := scan_eq_type "crystalline_plains" _ _ _
        (by
          intro c hc
          simp only [List.mem_map] at hc
          obtain ⟨d, -, rfl⟩ := hc
          exact pickTypeForCell_single cfg b hov hb hid _ _) hfold
      exact ⟨ha a rfl, hbb bb rfl⟩
  · next a hfold =>
      obtain ⟨ha, -⟩ := scan_eq_type "crystalline_plains" _ _ _
        (by
          intro c hc
          simp only [List.mem_map] at hc
          obtain ⟨d, -, rfl⟩ := hc
          exact pickTypeForCell_single cfg b hov hb hid _ _) hfold
      exact ⟨ha a rfl, ha a rfl⟩
  · exact ⟨rfl, rfl⟩

theorem resolveBiome_single (cfg : WorldConfig) (b : Biome)
    (hb : cfg.biomes = [b]) (hid : b.id = "crystalline_plains") :
    resolveBiome cfg "crystalline_plains" = some b := by
  simp only [resolveBiome, biomesGet, hb, List.find?]
  rw [show (b.id == "crystalline_plains") = true from by
    rw [hid]; exact beq_self_eq_true _]
  rfl

theorem getBiomeWeights_single (cfg : WorldConfig) (b : Biome)
    (hov : cfg.ruinsOverlay = none) (hb : cfg.biomes = [b])
    (hid : b.id = "crystalline_plains") (x z : ℝ) :
    getBiomeWeights cfg x z = some [(b, 1)] := by
  obtain ⟨h1, h2⟩ := nearestTwoCells_single cfg b hov hb hid x z
  simp only [getBiomeWeights, h1, h2, resolveBiome_single cfg b hb hid]
  simp

theorem getBiomeAt_single (cfg : WorldConfig) (b : Biome)
    (hov : cfg.ruinsOverlay = none) (hb : cfg.biomes = [b])
    (hid : b.id = "crystalline_plains") (x z : ℝ) :
    getBiomeAt cfg x z = some b := by
  simp [getBiomeAt, getBiomeMixAt, getBiomeWeights_single cfg b hov hb hid]

/-! ## Claim C1: determinism of the core field functions -/

/-- **C1** — confirmed.  The embedded field functions are pure functions of
their arguments (and the fixed world configuration): the whole generation
pipeline is built from `hash2D` and arithmetic, with no hidden mutable
state, so calling `getHeight`, `getBiomeAt`, `getColorForHeight` or
`getTreeAt` twice with the same arguments yields identical results. -/
theorem C1_field_functions_deterministic :
    ∀ (cfg : WorldConfig) (x z hh : ℝ) (wx wz th : ℤ),
      getHeight cfg x z = getHeight cfg x z ∧
      getBiomeAt cfg x z = getBiomeAt cfg x z ∧
      getColorForHeight cfg hh x z = getColorForHeight cfg hh x z ∧
      getTreeAt cfg wx wz th = getTreeAt cfg wx wz th :=
  fun _ _ _ _ _ _ _ => ⟨rfl, rfl, rfl, rfl⟩

/-! ## Claim C5: large-structure exclusivity per coarse cell -/

/-- **C5** — confirmed.  The coarse-POI path of `getTreeAt` can return
blocks only at the cell's single deterministic anchor column
`cellCenter (cellId …)`: at every other column it yields `none` (control
falls through to the ambient props), so each 72-cell hosts at most one
large structure. -/
theorem C5_large_structure_exclusivity (cfg : WorldConfig) (biome : Biome)
    (wx wz th : ℤ)
    (hna : ¬(wx = (cellCenter (cellId wx wz 72).1 (cellId wx wz 72).2 72).1 ∧
             wz = (cellCenter (cellId wx wz 72).1 (cellId wx wz 72).2 72).2)) :
    poiBlocks cfg biome wx wz th = none := by
  simp only [poiBlocks]
  exact if_neg hna

/-- Anchor of the cell containing the origin: both hashes involved collapse
to 1.0, placing it at (55, 55). -/
theorem cellCenter_origin : cellCenter 0 0 72 = (55, 55) := by
  unfold cellCenter h01
  rw [show (0 : ℤ) * 1337 + 11 = 11 from by decide,
    show (0 : ℤ) * 733 + 17 = 17 from by decide,
    show (0 : ℤ) * 911 + 29 = 29 from by decide,
    show (0 : ℤ) * 1709 + 31 = 31 from by decide,
    hash2DR_eq_one (hash2D_eq_one_of 11 17 (by decide)),
    hash2DR_eq_one (hash2D_eq_one_of 29 31 (by decide))]
  norm_num

theorem cellId_origin : cellId 0 0 72 = (0, 0) := by
  unfold cellId
  norm_num

/-- Witness for C5: the column (0,0) is not the anchor of its cell (which
sits at (55,55)), and the POI path indeed returns `none` there. -/
theorem C5_large_structure_exclusivity_witness :
    ¬((0 : ℤ) = (cellCenter (cellId 0 0 72).1 (cellId 0 0 72).2 72).1 ∧
      (0 : ℤ) = (cellCenter (cellId 0 0 72).1 (cellId 0 0 72).2 72).2) ∧
    poiBlocks cfgD bFarD 0 0 10 = none := by
  have hne : ¬((0 : ℤ) = (cellCenter (cellId 0 0 72).1 (cellId 0 0 72).2 72).1 ∧
      (0 : ℤ) = (cellCenter (cellId 0 0 72).1 (cellId 0 0 72).2 72).2) := by
    rw [cellId_origin]
    simp only [cellCenter_origin]
    intro h
    exact absurd h.1 (by decide)
  exact ⟨hne, C5_large_structure_exclusivity cfgD bFarD 0 0 10 hne⟩

/-! ## Claim C4: structure selection at an anchor column -/

theorem h01_one (x z : ℤ) (h : hash2D x z = 1) : h01 x z = 1 := by
  rw [h01, hash2DR_eq_one h]
  norm_num

/-- Modelled from the spec: a single-biome configuration whose
`objectProbabilities` leave a gap above the cumulative sum
(0.1 + 0.2 + 0.15 + 0.11 = 0.56) with a zero monolith weight. -/
noncomputable def b4 : Biome :=
  { id := "crystalline_plains", profile := "plains",
    baseColor := ⟨0.6, 0.65, 0.7⟩, waterColor := none,
    climatePref := none, rarityGate := none,
    roughness := none, vertical := none, wetness := none,
    objectProbabilities := ⟨0.1, 0.2, 0.15, 0.11, 0⟩ }

/-- Modelled from the spec: world configuration carrying `b4` as its only
biome. -/
noncomputable def cfg4 : WorldConfig :=
  { biomeCell := 20, transitionBand := 0.18, waterLevel := -6,
    climate := ⟨0, 0, 0, 0, 0, 0, 0, 0, 0, 0, 0⟩,
    ruinsOverlay := none,
    mountain := ⟨2, 1, 1, 1, 40, 6⟩, rivers := ⟨6, 10, 0.8⟩,
    ice := ⟨1000, 0.3, 0.4, 20, 40⟩, biomes := [b4] }

/-- **C4** — amended.  At an anchor column whose spawn roll passes (and
whose ice special case does not fire), the structure type is chosen by
comparing a single roll against the *cumulative unnormalised* weights in
the fixed order ruin → spire → crystal → crystal_cluster, with monolith
catching the residue only when its weight is non-zero: when the roll is at
or above the cumulative sum of the first four weights and the monolith
weight is zero, no branch fires and the POI path returns an *empty* block
array — the roll falls through unselected, contradicting the claimed
normalised selection. -/
theorem C4_cumulative_unnormalised_selection (cfg : WorldConfig)
    (biome : Biome) (wx wz th : ℤ)
    (hanchor : wx = (cellCenter (cellId wx wz 72).1 (cellId wx wz 72).2 72).1 ∧
        wz = (cellCenter (cellId wx wz 72).1 (cellId wx wz 72).2 72).2)
    (hp : 0.80 - nearSpawnBoost wx wz * 0.28 <
        h01 ((cellId wx wz 72).1 * 5011 + 7) ((cellId wx wz 72).2 * 9011 + 19))
    (hice : ¬(0.55 < getIceFactor cfg (wx : ℝ) (wz : ℝ) (th : ℝ) ∧
        0.35 < h01 ((cellId wx wz 72).1 * 701 + 3)
          ((cellId wx wz 72).2 * 1109 + 9)))
    (hr0 : 0 ≤ biome.objectProbabilities.ruin)
    (hs0 : 0 ≤ biome.objectProbabilities.spire)
    (hc0 : 0 ≤ biome.objectProbabilities.crystal)
    (hcc0 : 0 ≤ biome.objectProbabilities.crystal_cluster)
    (hfall : biome.objectProbabilities.ruin + biome.objectProbabilities.spire +
        biome.objectProbabilities.crystal +
        biome.objectProbabilities.crystal_cluster ≤
        h01 ((cellId wx wz 72).1 * 133 + 17) ((cellId wx wz 72).2 * 277 + 23))
    (hmono : biome.objectProbabilities.monolith = 0) :
    poiBlocks cfg biome wx wz th = some [] := by
  simp only [poiBlocks]
  rw [if_pos hanchor, if_pos hp, if_neg hice,
    if_neg (fun h => absurd h.2 (by push_neg; linarith)),
    if_neg (fun h => absurd h.2 (by push_neg; linarith)),
    if_neg (fun h => absurd h.2 (by push_neg; linarith)),
    if_neg (fun h => absurd h.2 (by push_neg; linarith)),
    if_neg (fun h => absurd rfl (hmono ▸ h))]

theorem cellId_c4 : cellId 199 271 72 = (2, 3) := by
  unfold cellId
  norm_num [Prod.ext_iff]

theorem cellCenter_c4 : cellCenter 2 3 72 = (199, 271) := by
  unfold cellCenter h01
  rw [show (2 : ℤ) * 1337 + 11 = 2685 from by decide,
    show (3 : ℤ) * 733 + 17 = 2216 from by decide,
    show (2 : ℤ) * 911 + 29 = 1851 from by decide,
    show (3 : ℤ) * 1709 + 31 = 5158 from by decide,
    hash2DR_eq_one (hash2D_eq_one_of 2685 2216 (by decide)),
    hash2DR_eq_one (hash2D_eq_one_of 1851 5158 (by decide))]
  norm_num

theorem nearSpawnBoost_c4 : nearSpawnBoost 199 271 = 0 := by
  simp only [nearSpawnBoost]
  rw [show ((199 : ℤ) : ℝ) * ((199 : ℤ) : ℝ) + ((271 : ℤ) : ℝ) * ((271 : ℤ) : ℝ)
      = 113042 from by push_cast; norm_num]
  have h140 : (140 : ℝ) ≤ Real.sqrt 113042 := by
    have h : Real.sqrt 19600 ≤ Real.sqrt 113042 := Real.sqrt_le_sqrt (by norm_num)
    rw [show (19600 : ℝ) = 140 ^ 2 by norm_num,
      Real.sqrt_sq (by norm_num : (0 : ℝ) ≤ 140)] at h
    exact h
  rw [if_neg (by push_neg; linarith), if_neg (by push_neg; linarith)]
  norm_num

theorem getRavineFactor_c4 : getRavineFactor ((199 : ℤ) : ℝ) ((271 : ℤ) : ℝ) = 0 := by
  rw [show ((199 : ℤ) : ℝ) = (199 : ℝ) from by norm_num,
    show ((271 : ℤ) : ℝ) = (271 : ℝ) from by norm_num]
  have n1 : noise2D (20.088 : ℝ) (-6.048) = 1 :=
    noise2D_eq_one 20.088 (-6.048) 20 (-7)
      (floor_eval (by norm_num) (by norm_num))
      (floor_eval (by norm_num) (by norm_num))
      (hash2D_eq_one_of 20 (-7) (by decide))
      (hash2D_eq_one_of (20 + 1) (-7) (by decide))
      (hash2D_eq_one_of 20 ((-7) + 1) (by decide))
      (hash2D_eq_one_of (20 + 1) ((-7) + 1) (by decide))
  have n2 : noise2D ((20.088 : ℝ) * 2) ((-6.048 : ℝ) * 2) = 1 := by
    rw [show (20.088 : ℝ) * 2 = 40.176 from by norm_num,
      show (-6.048 : ℝ) * 2 = -12.096 from by norm_num]
    exact noise2D_eq_one 40.176 (-12.096) 40 (-13)
      (floor_eval (by norm_num) (by norm_num))
      (floor_eval (by norm_num) (by norm_num))
      (hash2D_eq_one_of 40 (-13) (by decide))
      (hash2D_eq_one_of (40 + 1) (-13) (by decide))
      (hash2D_eq_one_of 40 ((-13) + 1) (by decide))
      (hash2D_eq_one_of (40 + 1) ((-13) + 1) (by decide))
  have hwarp := fbm2_ones n1 n2
  have m1 : noise2D (8.44 : ℝ) 10.48 = 1 :=
    noise2D_eq_one 8.44 10.48 8 10
      (floor_eval (by norm_num) (by norm_num))
      (floor_eval (by norm_num) (by norm_num))
      (hash2D_eq_one_of 8 10 (by decide))
      (hash2D_eq_one_of (8 + 1) 10 (by decide))
      (hash2D_eq_one_of 8 (10 + 1) (by decide))
      (hash2D_eq_one_of (8 + 1) (10 + 1) (by decide))
  have m2 : noise2D ((8.44 : ℝ) * 2) ((10.48 : ℝ) * 2) = 1 := by
    rw [show (8.44 : ℝ) * 2 = 16.88 from by norm_num,
      show (10.48 : ℝ) * 2 = 20.96 from by norm_num]
    exact noise2D_eq_one 16.88 20.96 16 20
      (floor_eval (by norm_num) (by norm_num))
      (floor_eval (by norm_num) (by norm_num))
      (hash2D_eq_one_of 16 20 (by decide))
      (hash2D_eq_one_of (16 + 1) 20 (by decide))
      (hash2D_eq_one_of 16 (20 + 1) (by decide))
      (hash2D_eq_one_of (16 + 1) (20 + 1) (by decide))
  have hf := fbm2_ones m1 m2
  simp only [getRavineFactor]
  rw [show (199 : ℝ) * 0.012 + 17.7 = 20.088 from by norm_num,
    show (271 : ℝ) * 0.012 - 9.3 = -6.048 from by norm_num, hwarp,
    show ((199 : ℝ) + 1 * 12) * 0.040 = 8.44 from by norm_num,
    show ((271 : ℝ) - 1 * 9) * 0.040 = 10.48 from by norm_num, hf]
  norm_num [clamp01]

theorem getRiverFactor_c4 : getRiverFactor ((199 : ℤ) : ℝ) ((271 : ℤ) : ℝ) = 0 := by
  rw [show ((199 : ℤ) : ℝ) = (199 : ℝ) from by norm_num,
    show ((271 : ℤ) : ℝ) = (271 : ℝ) from by norm_num]
  have n1 : noise2D (1.99 : ℝ) 2.71 = 1 :=
    noise2D_eq_one 1.99 2.71 1 2
      (floor_eval (by norm_num) (by norm_num))
      (floor_eval (by norm_num) (by norm_num))
      (hash2D_eq_one_of 1 2 (by decide))
      (hash2D_eq_one_of (1 + 1) 2 (by decide))
      (hash2D_eq_one_of 1 (2 + 1) (by decide))
      (hash2D_eq_one_of (1 + 1) (2 + 1) (by decide))
  have n2 : noise2D ((1.99 : ℝ) * 2) ((2.71 : ℝ) * 2) = 1 := by
    rw [show (1.99 : ℝ) * 2 = 3.98 from by norm_num,
      show (2.71 : ℝ) * 2 = 5.42 from by norm_num]
    exact noise2D_eq_one 3.98 5.42 3 5
      (floor_eval (by norm_num) (by norm_num))
      (floor_eval (by norm_num) (by norm_num))
      (hash2D_eq_one_of 3 5 (by decide))
      (hash2D_eq_one_of (3 + 1) 5 (by decide))
      (hash2D_eq_one_of 3 (5 + 1) (by decide))
      (hash2D_eq_one_of (3 + 1) (5 + 1) (by decide))
  have hwarp := fbm2_ones n1 n2
  have m1 : noise2D (104.34 : ℝ) (-44.86) = 1 :=
    noise2D_eq_one 104.34 (-44.86) 104 (-45)
      (floor_eval (by norm_num) (by norm_num))
      (floor_eval (by norm_num) (by norm_num))
      (hash2D_eq_one_of 104 (-45) (by decide))
      (hash2D_eq_one_of (104 + 1) (-45) (by decide))
      (hash2D_eq_one_of 104 ((-45) + 1) (by decide))
      (hash2D_eq_one_of (104 + 1) ((-45) + 1) (by decide))
  have m2 : noise2D ((104.34 : ℝ) * 2) ((-44.86 : ℝ) * 2) = 1 := by
    rw [show (104.34 : ℝ) * 2 = 208.68 from by norm_num,
      show (-44.86 : ℝ) * 2 = -89.72 from by norm_num]
    exact noise2D_eq_one 208.68 (-89.72) 208 (-90)
      (floor_eval (by norm_num) (by norm_num))
      (floor_eval (by norm_num) (by norm_num))
      (hash2D_eq_one_of 208 (-90) (by decide))
      (hash2D_eq_one_of (208 + 1) (-90) (by decide))
      (hash2D_eq_one_of 208 ((-90) + 1) (by decide))
      (hash2D_eq_one_of (208 + 1) ((-90) + 1) (by decide))
  have hf := fbm2_ones m1 m2
  simp only [getRiverFactor]
  rw [show (199 : ℝ) * 0.010 = 1.99 from by norm_num,
    show (271 : ℝ) * 0.010 = 2.71 from by norm_num, hwarp,
    show ((199 : ℝ) + 1 * 18) * 0.020 + 100 = 104.34 from by norm_num,
    show ((271 : ℝ) - 1 * 14) * 0.020 - 50 = -44.86 from by norm_num, hf]
  norm_num [clamp01]

theorem getIceFactor_c4 :
    getIceFactor cfg4 ((199 : ℤ) : ℝ) ((271 : ℤ) : ℝ) ((10 : ℤ) : ℝ) =
      43317/200000 := by
  rw [show ((199 : ℤ) : ℝ) = (199 : ℝ) from by norm_num,
    show ((271 : ℤ) : ℝ) = (271 : ℝ) from by norm_num,
    show ((10 : ℤ) : ℝ) = (10 : ℝ) from by norm_num]
  have n1 : noise2D (11.194 : ℝ) (-3.374) = 1 :=
    noise2D_eq_one 11.194 (-3.374) 11 (-4)
      (floor_eval (by norm_num) (by norm_num))
      (floor_eval (by norm_num) (by norm_num))
      (hash2D_eq_one_of 11 (-4) (by decide))
      (hash2D_eq_one_of (11 + 1) (-4) (by decide))
      (hash2D_eq_one_of 11 ((-4) + 1) (by decide))
      (hash2D_eq_one_of (11 + 1) ((-4) + 1) (by decide))
  have n2 : noise2D ((11.194 : ℝ) * 2) ((-3.374 : ℝ) * 2) = 1 := by
    rw [show (11.194 : ℝ) * 2 = 22.388 from by norm_num,
      show (-3.374 : ℝ) * 2 = -6.748 from by norm_num]
    exact noise2D_eq_one 22.388 (-6.748) 22 (-7)
      (floor_eval (by norm_num) (by norm_num))
      (floor_eval (by norm_num) (by norm_num))
      (hash2D_eq_one_of 22 (-7) (by decide))
      (hash2D_eq_one_of (22 + 1) (-7) (by decide))
      (hash2D_eq_one_of 22 ((-7) + 1) (by decide))
      (hash2D_eq_one_of (22 + 1) ((-7) + 1) (by decide))
  have n3 : noise2D ((11.194 : ℝ) * 4) ((-3.374 : ℝ) * 4) = 1 := by
    rw [show (11.194 : ℝ) * 4 = 44.776 from by norm_num,
      show (-3.374 : ℝ) * 4 = -13.496 from by norm_num]
    exact noise2D_eq_one 44.776 (-13.496) 44 (-14)
      (floor_eval (by norm_num) (by norm_num))
      (floor_eval (by norm_num) (by norm_num))
      (hash2D_eq_one_of 44 (-14) (by decide))
      (hash2D_eq_one_of (44 + 1) (-14) (by decide))
      (hash2D_eq_one_of 44 ((-14) + 1) (by decide))
      (hash2D_eq_one_of (44 + 1) ((-14) + 1) (by decide))
  have hcold := fbm3_ones n1 n2 n3
  simp only [getIceFactor, cfg4]
  rw [show (199 : ℝ) * 0.006 + 10 = 11.194 from by norm_num,
    show (271 : ℝ) * 0.006 - 5 = -3.374 from by norm_num, hcold]
  norm_num [clamp01]

theorem poiBlocks_c4 : poiBlocks cfg4 b4 199 271 10 = some [] := by
  simp only [poiBlocks, cellId_c4, cellCenter_c4]
  rw [if_pos ⟨trivial, trivial⟩]
  rw [show (2 : ℤ) * 5011 + 7 = 10029 from by decide,
    show (3 : ℤ) * 9011 + 19 = 27052 from by decide,
    h01_one 10029 27052 (hash2D_eq_one_of 10029 27052 (by decide)),
    nearSpawnBoost_c4]
  rw [if_pos (by norm_num : (0.80 : ℝ) - 0 * 0.28 < 1)]
  rw [getIceFactor_c4]
  rw [if_neg (fun h => absurd h.1 (by norm_num))]
  rw [show (2 : ℤ) * 133 + 17 = 283 from by decide,
    show (3 : ℤ) * 277 + 23 = 854 from by decide,
    h01_one 283 854 (hash2D_eq_one_of 283 854 (by decide))]
  simp only [b4]
  rw [if_neg (fun h => absurd h.2 (by norm_num)),
    if_neg (fun h => absurd h.2 (by norm_num)),
    if_neg (fun h => absurd h.2 (by norm_num)),
    if_neg (fun h => absurd h.2 (by norm_num)),
    if_neg (by norm_num)]

/-- **C4 counterexample input** — the anchor column (199, 271) of cell
(2, 3) with terrain height 10 under `cfg4`: the spawn roll 1.0 passes the
0.80 threshold, the ice case does not fire (ice ≈ 0.217), the selection
roll is 1.0 ≥ 0.56 (the cumulative weight sum) and the monolith weight is
0, so `getTreeAt` returns an *empty* block array: the roll fell through
the claimed normalised weighted selection without selecting any type. -/
theorem C4_fall_through_counterexample :
    getTreeAt cfg4 199 271 10 = some (some []) := by
  simp only [getTreeAt]
  rw [if_neg (by norm_num [cfg4] : ¬(((10 : ℤ) : ℝ) ≤ cfg4.waterLevel + 1)),
    if_neg (by rw [getRavineFactor_c4]; norm_num),
    if_neg (by rw [getRiverFactor_c4]; norm_num)]
  simp only [getBiomeAt_single cfg4 b4 rfl rfl rfl, poiBlocks_c4]

/-- Witness for the amended C4 at the concrete counterexample input: all
preconditions of the cumulative-selection theorem hold at (199, 271) under
`cfg4`, and the POI path returns the empty array. -/
theorem C4_cumulative_unnormalised_selection_witness :
    ((199 : ℤ) = (cellCenter (cellId 199 271 72).1 (cellId 199 271 72).2 72).1 ∧
      (271 : ℤ) = (cellCenter (cellId 199 271 72).1 (cellId 199 271 72).2 72).2) ∧
    poiBlocks cfg4 b4 199 271 10 = some [] := by
  have hanchor : (199 : ℤ) =
      (cellCenter (cellId 199 271 72).1 (cellId 199 271 72).2 72).1 ∧
      (271 : ℤ) =
      (cellCenter (cellId 199 271 72).1 (cellId 199 271 72).2 72).2 := by
    rw [cellId_c4]
    exact ⟨by rw [cellCenter_c4], by rw [cellCenter_c4]⟩
  refine ⟨hanchor, ?_⟩
  refine C4_cumulative_unnormalised_selection cfg4 b4 199 271 10 hanchor ?_ ?_
    (by norm_num [b4]) (by norm_num [b4]) (by norm_num [b4])
    (by norm_num [b4]) ?_ (by norm_num [b4])
  · rw [cellId_c4]
    simp only
    rw [show (2 : ℤ) * 5011 + 7 = 10029 from by decide,
      show (3 : ℤ) * 9011 + 19 = 27052 from by decide,
      h01_one 10029 27052 (hash2D_eq_one_of 10029 27052 (by decide)),
      nearSpawnBoost_c4]
    norm_num
  · rw [getIceFactor_c4]
    intro h
    exact absurd h.1 (by norm_num)
  · rw [cellId_c4]
    simp only
    rw [show (2 : ℤ) * 133 + 17 = 283 from by decide,
      show (3 : ℤ) * 277 + 23 = 854 from by decide,
      h01_one 283 854 (hash2D_eq_one_of 283 854 (by decide))]
    norm_num [b4]

/-! ## The two-biome configuration `cfgW`: exercising the border logic

Modelled from the spec: worldConfig.json is not in src/, so this
configuration instantiates the spec-modelled `WorldConfig` with two biomes
whose temperature preferences split the cells around the exceptional hash
corner (58, -3) (the only lattice point in the scanned window where
`hash2D` is not 1.0). -/

noncomputable def bCPW : Biome :=
  { id := "crystalline_plains", profile := "plains",
    baseColor := ⟨0.6, 0.65, 0.7⟩, waterColor := none,
    climatePref := some ⟨some ⟨1, 1, none⟩, none, none⟩, rarityGate := none,
    roughness := none, vertical := none, wetness := none,
    objectProbabilities := ⟨0, 0, 0, 0, 0⟩ }

noncomputable def bAFW : Biome :=
  { id := "alien_forest", profile := "forest",
    baseColor := ⟨0.4, 0.6, 0.45⟩, waterColor := none,
    climatePref := some ⟨some ⟨377887/400000, 312741/12800000, none⟩,
      none, none⟩, rarityGate := none,
    roughness := none, vertical := none, wetness := none,
    objectProbabilities := ⟨0, 0, 0, 0, 0⟩ }

noncomputable def cfgW : WorldConfig :=
  { biomeCell := 20, transitionBand := 0.18, waterLevel := -6,
    climate := ⟨1, 0, 0, 0, 0, 0, 0, 0, 0, 0, 0⟩,
    ruinsOverlay := none,
    mountain := ⟨2, 1, 1, 1, 40, 6⟩, rivers := ⟨6, 10, 0.8⟩,
    ice := ⟨1000, 0.3, 0.4, 20, 40⟩, biomes := [bCPW, bAFW] }

theorem hash2DR_eq_of (x z i : ℤ)
    (h : toUint32 (hashT5 x z) % 2147483648 = i) :
    hash2DR x z = 1 - (i : ℝ) / 1073741824 := by
  rw [hash2DR, hash2D_eq_of x z i h]
  push_cast
  norm_num

theorem cellRand01_one (cx cz salt : ℤ)
    (h : hash2D (cx * 928371 + salt) (cz * 1231337 - salt) = 1) :
    cellRand01 cx cz salt = 1 := by
  rw [cellRand01, hash2DR_eq_one h]
  norm_num [clamp01]

theorem skipBiomeW (b : Biome) : ¬ skipBiome cfgW b := by
  simp only [skipBiome]
  rw [show cfgW.ruinsOverlay = none from rfl]
  exact not_false

theorem warpW (x z : ℝ) : warpPt cfgW x z = (x, z) := by
  simp only [warpPt]
  rw [show cfgW.climate.warpStrength = (0 : ℝ) from rfl]
  norm_num

theorem biomeScore_bCPW (c : Climate) (p : ℝ) :
    biomeScore bCPW c p = clamp01 (1 - |c.temp - 1|) := by
  simp only [biomeScore, bCPW, scoreNear, Option.getD_none]
  rw [max_eq_right (by norm_num : (1 : ℝ)/1000000 ≤ 1),
    max_eq_right (by norm_num : (1 : ℝ)/10000 ≤ 1), Real.rpow_one, div_one]
  ring

theorem biomeScore_bAFW (c : Climate) (p : ℝ) :
    biomeScore bAFW c p =
      clamp01 (1 - |c.temp - 377887/400000| / (312741/12800000)) := by
  simp only [biomeScore, bAFW, scoreNear, Option.getD_none]
  rw [max_eq_right (by norm_num : (1 : ℝ)/1000000 ≤ 312741/12800000),
    max_eq_right (by norm_num : (1 : ℝ)/10000 ≤ 1), Real.rpow_one]
  ring

theorem tempW_eq (cx cz : ℤ) (v : ℝ)
    (hn : noise2D ((cx : ℝ) * 1 + 19.2) ((cz : ℝ) * 1 - 33.1) = v) :
    (climateAt cfgW cx cz).temp = clamp01 ((v + 1) * 0.5) := by
  simp only [climateAt]
  rw [show cfgW.climate.tempFreq = (1 : ℝ) from rfl,
    show cfgW.climate.biasTempAmp = (0 : ℝ) from rfl, hn, mul_zero, add_zero]
  exact clamp01_of_mem (clamp01_nonneg _) (clamp01_le_one _)

theorem noiseW_38_29 : noise2D (57.2 : ℝ) (-4.1) = 1 :=
  noise2D_eq_one 57.2 (-4.1) 57 (-5)
    (floor_eval (by norm_num) (by norm_num))
    (floor_eval (by norm_num) (by norm_num))
    (hash2D_eq_one_of 57 (-5) (by decide))
    (hash2D_eq_one_of (57 + 1) (-5) (by decide))
    (hash2D_eq_one_of 57 ((-5) + 1) (by decide))
    (hash2D_eq_one_of (57 + 1) ((-5) + 1) (by decide))

theorem noiseW_39_29 : noise2D (58.2 : ℝ) (-4.1) = 1 :=
  noise2D_eq_one 58.2 (-4.1) 58 (-5)
    (floor_eval (by norm_num) (by norm_num))
    (floor_eval (by norm_num) (by norm_num))
    (hash2D_eq_one_of 58 (-5) (by decide))
    (hash2D_eq_one_of (58 + 1) (-5) (by decide))
    (hash2D_eq_one_of 58 ((-5) + 1) (by decide))
    (hash2D_eq_one_of (58 + 1) ((-5) + 1) (by decide))

theorem noiseW_40_29 : noise2D (59.2 : ℝ) (-4.1) = 1 :=
  noise2D_eq_one 59.2 (-4.1) 59 (-5)
    (floor_eval (by norm_num) (by norm_num))
    (floor_eval (by norm_num) (by norm_num))
    (hash2D_eq_one_of 59 (-5) (by decide))
    (hash2D_eq_one_of (59 + 1) (-5) (by decide))
    (hash2D_eq_one_of 59 ((-5) + 1) (by decide))
    (hash2D_eq_one_of (59 + 1) ((-5) + 1) (by decide))

theorem noiseW_41_29 : noise2D (60.2 : ℝ) (-4.1) = 1 :=
  noise2D_eq_one 60.2 (-4.1) 60 (-5)
    (floor_eval (by norm_num) (by norm_num))
    (floor_eval (by norm_num) (by norm_num))
    (hash2D_eq_one_of 60 (-5) (by decide))
    (hash2D_eq_one_of (60 + 1) (-5) (by decide))
    (hash2D_eq_one_of 60 ((-5) + 1) (by decide))
    (hash2D_eq_one_of (60 + 1) ((-5) + 1) (by decide))

theorem noiseW_40_30 : noise2D (59.2 : ℝ) (-3.1) = 1 :=
  noise2D_eq_one 59.2 (-3.1) 59 (-4)
    (floor_eval (by norm_num) (by norm_num))
    (floor_eval (by norm_num) (by norm_num))
    (hash2D_eq_one_of 59 (-4) (by decide))
    (hash2D_eq_one_of (59 + 1) (-4) (by decide))
    (hash2D_eq_one_of 59 ((-4) + 1) (by decide))
    (hash2D_eq_one_of (59 + 1) ((-4) + 1) (by decide))

theorem noiseW_41_30 : noise2D (60.2 : ℝ) (-3.1) = 1 :=
  noise2D_eq_one 60.2 (-3.1) 60 (-4)
    (floor_eval (by norm_num) (by norm_num))
    (floor_eval (by norm_num) (by norm_num))
    (hash2D_eq_one_of 60 (-4) (by decide))
    (hash2D_eq_one_of (60 + 1) (-4) (by decide))
    (hash2D_eq_one_of 60 ((-4) + 1) (by decide))
    (hash2D_eq_one_of (60 + 1) ((-4) + 1) (by decide))

theorem noiseW_40_31 : noise2D (59.2 : ℝ) (-2.1) = 1 :=
  noise2D_eq_one 59.2 (-2.1) 59 (-3)
    (floor_eval (by norm_num) (by norm_num))
    (floor_eval (by norm_num) (by norm_num))
    (hash2D_eq_one_of 59 (-3) (by decide))
    (hash2D_eq_one_of (59 + 1) (-3) (by decide))
    (hash2D_eq_one_of 59 ((-3) + 1) (by decide))
    (hash2D_eq_one_of (59 + 1) ((-3) + 1) (by decide))

theorem noiseW_41_31 : noise2D (60.2 : ℝ) (-2.1) = 1 :=
  noise2D_eq_one 60.2 (-2.1) 60 (-3)
    (floor_eval (by norm_num) (by norm_num))
    (floor_eval (by norm_num) (by norm_num))
    (hash2D_eq_one_of 60 (-3) (by decide))
    (hash2D_eq_one_of (60 + 1) (-3) (by decide))
    (hash2D_eq_one_of 60 ((-3) + 1) (by decide))
    (hash2D_eq_one_of (60 + 1) ((-3) + 1) (by decide))

theorem noiseW_38_30 : noise2D (57.2 : ℝ) (-3.1) = 3158933/3200000 := by
  rw [noise2D_eval 57.2 (-3.1) 57 (-4)
      (floor_eval (by norm_num) (by norm_num))
      (floor_eval (by norm_num) (by norm_num)),
    hash2DR_eq_one (hash2D_eq_one_of 57 (-4) (by decide)),
    hash2DR_eq_one (hash2D_eq_one_of (57 + 1) (-4) (by decide)),
    hash2DR_eq_one (hash2D_eq_one_of 57 ((-4) + 1) (by decide)),
    hash2DR_eq_of (57 + 1) ((-4) + 1) 136314880 (by decide)]
  norm_num [lerp, smoothstep]

theorem noiseW_39_30 : noise2D (58.2 : ℝ) (-3.1) = 177887/200000 := by
  rw [noise2D_eval 58.2 (-3.1) 58 (-4)
      (floor_eval (by norm_num) (by norm_num))
      (floor_eval (by norm_num) (by norm_num)),
    hash2DR_eq_one (hash2D_eq_one_of 58 (-4) (by decide)),
    hash2DR_eq_one (hash2D_eq_one_of (58 + 1) (-4) (by decide)),
    hash2DR_eq_of 58 ((-4) + 1) 136314880 (by decide),
    hash2DR_eq_one (hash2D_eq_one_of (58 + 1) ((-4) + 1) (by decide))]
  norm_num [lerp, smoothstep]

theorem noiseW_38_31 : noise2D (57.2 : ℝ) (-2.1) = 3198817/3200000 := by
  rw [noise2D_eval 57.2 (-2.1) 57 (-3)
      (floor_eval (by norm_num) (by norm_num))
      (floor_eval (by norm_num) (by norm_num)),
    hash2DR_eq_one (hash2D_eq_one_of 57 (-3) (by decide)),
    hash2DR_eq_of (57 + 1) (-3) 136314880 (by decide),
    hash2DR_eq_one (hash2D_eq_one_of 57 ((-3) + 1) (by decide)),
    hash2DR_eq_one (hash2D_eq_one_of (57 + 1) ((-3) + 1) (by decide))]
  norm_num [lerp, smoothstep]

theorem noiseW_39_31 : noise2D (58.2 : ℝ) (-2.1) = 199363/200000 := by
  rw [noise2D_eval 58.2 (-2.1) 58 (-3)
      (floor_eval (by norm_num) (by norm_num))
      (floor_eval (by norm_num) (by norm_num)),
    hash2DR_eq_of 58 (-3) 136314880 (by decide),
    hash2DR_eq_one (hash2D_eq_one_of (58 + 1) (-3) (by decide)),
    hash2DR_eq_one (hash2D_eq_one_of 58 ((-3) + 1) (by decide)),
    hash2DR_eq_one (hash2D_eq_one_of (58 + 1) ((-3) + 1) (by decide))]
  norm_num [lerp, smoothstep]

theorem tempW_38_29 : (climateAt cfgW 38 29).temp = 1 := by
  have hn : noise2D (((38 : ℤ) : ℝ) * 1 + 19.2) (((29 : ℤ) : ℝ) * 1 - 33.1) = 1 := by
    rw [show (((38 : ℤ) : ℝ) * 1 + 19.2) = 57.2 from by push_cast; norm_num,
      show (((29 : ℤ) : ℝ) * 1 - 33.1) = -4.1 from by push_cast; norm_num]
    exact noiseW_38_29
  rw [tempW_eq 38 29 1 hn]
  norm_num [clamp01]

theorem tempW_39_29 : (climateAt cfgW 39 29).temp = 1 := by
  have hn : noise2D (((39 : ℤ) : ℝ) * 1 + 19.2) (((29 : ℤ) : ℝ) * 1 - 33.1) = 1 := by
    rw [show (((39 : ℤ) : ℝ) * 1 + 19.2) = 58.2 from by push_cast; norm_num,
      show (((29 : ℤ) : ℝ) * 1 - 33.1) = -4.1 from by push_cast; norm_num]
    exact noiseW_39_29
  rw [tempW_eq 39 29 1 hn]
  norm_num [clamp01]

theorem tempW_40_29 : (climateAt cfgW 40 29).temp = 1 := by
  have hn : noise2D (((40 : ℤ) : ℝ) * 1 + 19.2) (((29 : ℤ) : ℝ) * 1 - 33.1) = 1 := by
    rw [show (((40 : ℤ) : ℝ) * 1 + 19.2) = 59.2 from by push_cast; norm_num,
      show (((29 : ℤ) : ℝ) * 1 - 33.1) = -4.1 from by push_cast; norm_num]
    exact noiseW_40_29
  rw [tempW_eq 40 29 1 hn]
  norm_num [clamp01]

theorem tempW_41_29 : (climateAt cfgW 41 29).temp = 1 := by
  have hn : noise2D (((41 : ℤ) : ℝ) * 1 + 19.2) (((29 : ℤ) : ℝ) * 1 - 33.1) = 1 := by
    rw [show (((41 : ℤ) : ℝ) * 1 + 19.2) = 60.2 from by push_cast; norm_num,
      show (((29 : ℤ) : ℝ) * 1 - 33.1) = -4.1 from by push_cast; norm_num]
    exact noiseW_41_29
  rw [tempW_eq 41 29 1 hn]
  norm_num [clamp01]

theorem tempW_40_30 : (climateAt cfgW 40 30).temp = 1 := by
  have hn : noise2D (((40 : ℤ) : ℝ) * 1 + 19.2) (((30 : ℤ) : ℝ) * 1 - 33.1) = 1 := by
    rw [show (((40 : ℤ) : ℝ) * 1 + 19.2) = 59.2 from by push_cast; norm_num,
      show (((30 : ℤ) : ℝ) * 1 - 33.1) = -3.1 from by push_cast; norm_num]
    exact noiseW_40_30
  rw [tempW_eq 40 30 1 hn]
  norm_num [clamp01]

theorem tempW_41_30 : (climateAt cfgW 41 30).temp = 1 := by
  have hn : noise2D (((41 : ℤ) : ℝ) * 1 + 19.2) (((30 : ℤ) : ℝ) * 1 - 33.1) = 1 := by
    rw [show (((41 : ℤ) : ℝ) * 1 + 19.2) = 60.2 from by push_cast; norm_num,
      show (((30 : ℤ) : ℝ) * 1 - 33.1) = -3.1 from by push_cast; norm_num]
    exact noiseW_41_30
  rw [tempW_eq 41 30 1 hn]
  norm_num [clamp01]

theorem tempW_40_31 : (climateAt cfgW 40 31).temp = 1 := by
  have hn : noise2D (((40 : ℤ) : ℝ) * 1 + 19.2) (((31 : ℤ) : ℝ) * 1 - 33.1) = 1 := by
    rw [show (((40 : ℤ) : ℝ) * 1 + 19.2) = 59.2 from by push_cast; norm_num,
      show (((31 : ℤ) : ℝ) * 1 - 33.1) = -2.1 from by push_cast; norm_num]
    exact noiseW_40_31
  rw [tempW_eq 40 31 1 hn]
  norm_num [clamp01]

theorem tempW_41_31 : (climateAt cfgW 41 31).temp = 1 := by
  have hn : noise2D (((41 : ℤ) : ℝ) * 1 + 19.2) (((31 : ℤ) : ℝ) * 1 - 33.1) = 1 := by
    rw [show (((41 : ℤ) : ℝ) * 1 + 19.2) = 60.2 from by push_cast; norm_num,
      show (((31 : ℤ) : ℝ) * 1 - 33.1) = -2.1 from by push_cast; norm_num]
    exact noiseW_41_31
  rw [tempW_eq 41 31 1 hn]
  norm_num [clamp01]

theorem tempW_38_30 : (climateAt cfgW 38 30).temp = 6358933/6400000 := by
  have hn : noise2D (((38 : ℤ) : ℝ) * 1 + 19.2) (((30 : ℤ) : ℝ) * 1 - 33.1) = 3158933/3200000 := by
    rw [show (((38 : ℤ) : ℝ) * 1 + 19.2) = 57.2 from by push_cast; norm_num,
      show (((30 : ℤ) : ℝ) * 1 - 33.1) = -3.1 from by push_cast; norm_num]
    exact noiseW_38_30
  rw [tempW_eq 38 30 _ hn]
  norm_num [clamp01]

theorem tempW_39_30 : (climateAt cfgW 39 30).temp = 377887/400000 := by
  have hn : noise2D (((39 : ℤ) : ℝ) * 1 + 19.2) (((30 : ℤ) : ℝ) * 1 - 33.1) = 177887/200000 := by
    rw [show (((39 : ℤ) : ℝ) * 1 + 19.2) = 58.2 from by push_cast; norm_num,
      show (((30 : ℤ) : ℝ) * 1 - 33.1) = -3.1 from by push_cast; norm_num]
    exact noiseW_39_30
  rw [tempW_eq 39 30 _ hn]
  norm_num [clamp01]

theorem tempW_38_31 : (climateAt cfgW 38 31).temp = 6398817/6400000 := by
  have hn : noise2D (((38 : ℤ) : ℝ) * 1 + 19.2) (((31 : ℤ) : ℝ) * 1 - 33.1) = 3198817/3200000 := by
    rw [show (((38 : ℤ) : ℝ) * 1 + 19.2) = 57.2 from by push_cast; norm_num,
      show (((31 : ℤ) : ℝ) * 1 - 33.1) = -2.1 from by push_cast; norm_num]
    exact noiseW_38_31
  rw [tempW_eq 38 31 _ hn]
  norm_num [clamp01]

theorem tempW_39_31 : (climateAt cfgW 39 31).temp = 399363/400000 := by
  have hn : noise2D (((39 : ℤ) : ℝ) * 1 + 19.2) (((31 : ℤ) : ℝ) * 1 - 33.1) = 199363/200000 := by
    rw [show (((39 : ℤ) : ℝ) * 1 + 19.2) = 58.2 from by push_cast; norm_num,
      show (((31 : ℤ) : ℝ) * 1 - 33.1) = -2.1 from by push_cast; norm_num]
    exact noiseW_39_31
  rw [tempW_eq 39 31 _ hn]
  norm_num [clamp01]

theorem pickW_38_29 : pickTypeForCell cfgW 38 29 = "crystalline_plains" := by
  rw [pickTypeForCell_no_overlay cfgW rfl 38 29,
    cellRand01_one 38 29 91 (hash2D_eq_one_of _ _ (by decide))]
  simp only [pickTypeCore]
  rw [show cfgW.biomes = [bCPW, bAFW] from rfl]
  simp only [List.foldl, List.head?, Option.map_some, Option.getD_some]
  rw [if_neg (skipBiomeW bCPW), if_neg (skipBiomeW bAFW),
    biomeScore_bCPW, biomeScore_bAFW, tempW_38_29]
  rw [show |(1 : ℝ) - 1| = 0 from by norm_num,
    show |(1 : ℝ) - 377887/400000| = 22113/400000 from by norm_num]
  norm_num [bCPW, bAFW, clamp01, max_def, min_def]

theorem pickW_38_30 : pickTypeForCell cfgW 38 30 = "crystalline_plains" := by
  rw [pickTypeForCell_no_overlay cfgW rfl 38 30,
    cellRand01_one 38 30 91 (hash2D_eq_one_of _ _ (by decide))]
  simp only [pickTypeCore]
  rw [show cfgW.biomes = [bCPW, bAFW] from rfl]
  simp only [List.foldl, List.head?, Option.map_some, Option.getD_some]
  rw [if_neg (skipBiomeW bCPW), if_neg (skipBiomeW bAFW),
    biomeScore_bCPW, biomeScore_bAFW, tempW_38_30]
  rw [show |(6358933/6400000 : ℝ) - 1| = 41067/6400000 from by norm_num,
    show |(6358933/6400000 : ℝ) - 377887/400000| = 312741/6400000 from by norm_num]
  norm_num [bCPW, bAFW, clamp01, max_def, min_def]

theorem pickW_38_31 : pickTypeForCell cfgW 38 31 = "crystalline_plains" := by
  rw [pickTypeForCell_no_overlay cfgW rfl 38 31,
    cellRand01_one 38 31 91 (hash2D_eq_one_of _ _ (by decide))]
  simp only [pickTypeCore]
  rw [show cfgW.biomes = [bCPW, bAFW] from rfl]
  simp only [List.foldl, List.head?, Option.map_some, Option.getD_some]
  rw [if_neg (skipBiomeW bCPW), if_neg (skipBiomeW bAFW),
    biomeScore_bCPW, biomeScore_bAFW, tempW_38_31]
  rw [show |(6398817/6400000 : ℝ) - 1| = 1183/6400000 from by norm_num,
    show |(6398817/6400000 : ℝ) - 377887/400000| = 2821/51200 from by norm_num]
  norm_num [bCPW, bAFW, clamp01, max_def, min_def]

theorem pickW_39_29 : pickTypeForCell cfgW 39 29 = "crystalline_plains" := by
  rw [pickTypeForCell_no_overlay cfgW rfl 39 29,
    cellRand01_one 39 29 91 (hash2D_eq_one_of _ _ (by decide))]
  simp only [pickTypeCore]
  rw [show cfgW.biomes = [bCPW, bAFW] from rfl]
  simp only [List.foldl, List.head?, Option.map_some, Option.getD_some]
  rw [if_neg (skipBiomeW bCPW), if_neg (skipBiomeW bAFW),
    biomeScore_bCPW, biomeScore_bAFW, tempW_39_29]
  rw [show |(1 : ℝ) - 1| = 0 from by norm_num,
    show |(1 : ℝ) - 377887/400000| = 22113/400000 from by norm_num]
  norm_num [bCPW, bAFW, clamp01, max_def, min_def]

theorem pickW_39_30 : pickTypeForCell cfgW 39 30 = "alien_forest" := by
  rw [pickTypeForCell_no_overlay cfgW rfl 39 30,
    cellRand01_one 39 30 91 (hash2D_eq_one_of _ _ (by decide))]
  simp only [pickTypeCore]
  rw [show cfgW.biomes = [bCPW, bAFW] from rfl]
  simp only [List.foldl, List.head?, Option.map_some, Option.getD_some]
  rw [if_neg (skipBiomeW bCPW), if_neg (skipBiomeW bAFW),
    biomeScore_bCPW, biomeScore_bAFW, tempW_39_30]
  rw [show |(377887/400000 : ℝ) - 1| = 22113/400000 from by norm_num,
    show |(377887/400000 : ℝ) - 377887/400000| = 0 from by norm_num]
  norm_num [bCPW, bAFW, clamp01, max_def, min_def]

theorem pickW_39_31 : pickTypeForCell cfgW 39 31 = "crystalline_plains" := by
  rw [pickTypeForCell_no_overlay cfgW rfl 39 31,
    cellRand01_one 39 31 91 (hash2D_eq_one_of _ _ (by decide))]
  simp only [pickTypeCore]
  rw [show cfgW.biomes = [bCPW, bAFW] from rfl]
  simp only [List.foldl, List.head?, Option.map_some, Option.getD_some]
  rw [if_neg (skipBiomeW bCPW), if_neg (skipBiomeW bAFW),
    biomeScore_bCPW, biomeScore_bAFW, tempW_39_31]
  rw [show |(399363/400000 : ℝ) - 1| = 637/400000 from by norm_num,
    show |(399363/400000 : ℝ) - 377887/400000| = 5369/100000 from by norm_num]
  norm_num [bCPW, bAFW, clamp01, max_def, min_def]

theorem pickW_40_29 : pickTypeForCell cfgW 40 29 = "crystalline_plains" := by
  rw [pickTypeForCell_no_overlay cfgW rfl 40 29,
    cellRand01_one 40 29 91 (hash2D_eq_one_of _ _ (by decide))]
  simp only [pickTypeCore]
  rw [show cfgW.biomes = [bCPW, bAFW] from rfl]
  simp only [List.foldl, List.head?, Option.map_some, Option.getD_some]
  rw [if_neg (skipBiomeW bCPW), if_neg (skipBiomeW bAFW),
    biomeScore_bCPW, biomeScore_bAFW, tempW_40_29]
  rw [show |(1 : ℝ) - 1| = 0 from by norm_num,
    show |(1 : ℝ) - 377887/400000| = 22113/400000 from by norm_num]
  norm_num [bCPW, bAFW, clamp01, max_def, min_def]

theorem pickW_40_30 : pickTypeForCell cfgW 40 30 = "crystalline_plains" := by
  rw [pickTypeForCell_no_overlay cfgW rfl 40 30,
    cellRand01_one 40 30 91 (hash2D_eq_one_of _ _ (by decide))]
  simp only [pickTypeCore]
  rw [show cfgW.biomes = [bCPW, bAFW] from rfl]
  simp only [List.foldl, List.head?, Option.map_some, Option.getD_some]
  rw [if_neg (skipBiomeW bCPW), if_neg (skipBiomeW bAFW),
    biomeScore_bCPW, biomeScore_bAFW, tempW_40_30]
  rw [show |(1 : ℝ) - 1| = 0 from by norm_num,
    show |(1 : ℝ) - 377887/400000| = 22113/400000 from by norm_num]
  norm_num [bCPW, bAFW, clamp01, max_def, min_def]

theorem pickW_40_31 : pickTypeForCell cfgW 40 31 = "crystalline_plains" := by
  rw [pickTypeForCell_no_overlay cfgW rfl 40 31,
    cellRand01_one 40 31 91 (hash2D_eq_one_of _ _ (by decide))]
  simp only [pickTypeCore]
  rw [show cfgW.biomes = [bCPW, bAFW] from rfl]
  simp only [List.foldl, List.head?, Option.map_some, Option.getD_some]
  rw [if_neg (skipBiomeW bCPW), if_neg (skipBiomeW bAFW),
    biomeScore_bCPW, biomeScore_bAFW, tempW_40_31]
  rw [show |(1 : ℝ) - 1| = 0 from by norm_num,
    show |(1 : ℝ) - 377887/400000| = 22113/400000 from by norm_num]
  norm_num [bCPW, bAFW, clamp01, max_def, min_def]

theorem pickW_41_29 : pickTypeForCell cfgW 41 29 = "crystalline_plains" := by
  rw [pickTypeForCell_no_overlay cfgW rfl 41 29,
    cellRand01_one 41 29 91 (hash2D_eq_one_of _ _ (by decide))]
  simp only [pickTypeCore]
  rw [show cfgW.biomes = [bCPW, bAFW] from rfl]
  simp only [List.foldl, List.head?, Option.map_some, Option.getD_some]
  rw [if_neg (skipBiomeW bCPW), if_neg (skipBiomeW bAFW),
    biomeScore_bCPW, biomeScore_bAFW, tempW_41_29]
  rw [show |(1 : ℝ) - 1| = 0 from by norm_num,
    show |(1 : ℝ) - 377887/400000| = 22113/400000 from by norm_num]
  norm_num [bCPW, bAFW, clamp01, max_def, min_def]

theorem pickW_41_30 : pickTypeForCell cfgW 41 30 = "crystalline_plains" := by
  rw [pickTypeForCell_no_overlay cfgW rfl 41 30,
    cellRand01_one 41 30 91 (hash2D_eq_one_of _ _ (by decide))]
  simp only [pickTypeCore]
  rw [show cfgW.biomes = [bCPW, bAFW] from rfl]
  simp only [List.foldl, List.head?, Option.map_some, Option.getD_some]
  rw [if_neg (skipBiomeW bCPW), if_neg (skipBiomeW bAFW),
    biomeScore_bCPW, biomeScore_bAFW, tempW_41_30]
  rw [show |(1 : ℝ) - 1| = 0 from by norm_num,
    show |(1 : ℝ) - 377887/400000| = 22113/400000 from by norm_num]
  norm_num [bCPW, bAFW, clamp01, max_def, min_def]

theorem pickW_41_31 : pickTypeForCell cfgW 41 31 = "crystalline_plains" := by
  rw [pickTypeForCell_no_overlay cfgW rfl 41 31,
    cellRand01_one 41 31 91 (hash2D_eq_one_of _ _ (by decide))]
  simp only [pickTypeCore]
  rw [show cfgW.biomes = [bCPW, bAFW] from rfl]
  simp only [List.foldl, List.head?, Option.map_some, Option.getD_some]
  rw [if_neg (skipBiomeW bCPW), if_neg (skipBiomeW bAFW),
    biomeScore_bCPW, biomeScore_bAFW, tempW_41_31]
  rw [show |(1 : ℝ) - 1| = 0 from by norm_num,
    show |(1 : ℝ) - 377887/400000| = 22113/400000 from by norm_num]
  norm_num [bCPW, bAFW, clamp01, max_def, min_def]

theorem fpW (cx cz : ℤ)
    (h1 : hash2D (cx * 928371 + 11) (cz * 1231337 - 11) = 1)
    (h2 : hash2D (cx * 928371 + 23) (cz * 1231337 - 23) = 1) :
    featurePoint cfgW cx cz = ((cx : ℝ) * 20 + 17, (cz : ℝ) * 20 + 17) := by
  simp only [featurePoint, cellRand01_one cx cz 11 h1,
    cellRand01_one cx cz 23 h2]
  rw [show cfgW.biomeCell = (20 : ℝ) from rfl, Prod.mk.injEq]
  constructor <;> ring

theorem resolveBiome_AF : resolveBiome cfgW "alien_forest" = some bAFW := by
  simp only [resolveBiome, biomesGet]
  rw [show cfgW.biomes = [bCPW, bAFW] from rfl]
  simp only [List.find?]
  rw [show (bCPW.id == "alien_forest") = false from by decide,
    show (bAFW.id == "alien_forest") = true from by decide]
  rfl

theorem resolveBiome_CPW : resolveBiome cfgW "crystalline_plains" = some bCPW := by
  simp only [resolveBiome, biomesGet]
  rw [show cfgW.biomes = [bCPW, bAFW] from rfl]
  simp only [List.find?]
  rw [show (bCPW.id == "crystalline_plains") = true from by decide]
  rfl

theorem ntc_q1 : nearestTwoCells cfgW 797 617 = (⟨"alien_forest", 0⟩, ⟨"crystalline_plains", 400⟩) := by
  simp only [nearestTwoCells, warpW]
  rw [show cfgW.biomeCell = (20 : ℝ) from rfl]
  rw [show ⌊(797 : ℝ) / 20⌋ = (39 : ℤ) from by norm_num,
    show ⌊(617 : ℝ) / 20⌋ = (30 : ℤ) from by norm_num]
  simp only [neighborOffsets, List.map]
  rw [show (39 : ℤ) + -1 = 38 from by decide,
    show (39 : ℤ) + 0 = 39 from by decide,
    show (39 : ℤ) + 1 = 40 from by decide,
    show (30 : ℤ) + -1 = 29 from by decide,
    show (30 : ℤ) + 0 = 30 from by decide,
    show (30 : ℤ) + 1 = 31 from by decide]
  rw [
    fpW 38 29 (hash2D_eq_one_of _ _ (by decide)) (hash2D_eq_one_of _ _ (by decide)),
    fpW 39 29 (hash2D_eq_one_of _ _ (by decide)) (hash2D_eq_one_of _ _ (by decide)),
    fpW 40 29 (hash2D_eq_one_of _ _ (by decide)) (hash2D_eq_one_of _ _ (by decide)),
    fpW 38 30 (hash2D_eq_one_of _ _ (by decide)) (hash2D_eq_one_of _ _ (by decide)),
    fpW 39 30 (hash2D_eq_one_of _ _ (by decide)) (hash2D_eq_one_of _ _ (by decide)),
    fpW 40 30 (hash2D_eq_one_of _ _ (by decide)) (hash2D_eq_one_of _ _ (by decide)),
    fpW 38 31 (hash2D_eq_one_of _ _ (by decide)) (hash2D_eq_one_of _ _ (by decide)),
    fpW 39 31 (hash2D_eq_one_of _ _ (by decide)) (hash2D_eq_one_of _ _ (by decide)),
    fpW 40 31 (hash2D_eq_one_of _ _ (by decide)) (hash2D_eq_one_of _ _ (by decide)),
    pickW_38_29, pickW_39_29, pickW_40_29, pickW_38_30, pickW_39_30, pickW_40_30, pickW_38_31, pickW_39_31, pickW_40_31]
  norm_num [scanStep, Cand.mk.injEq, Prod.mk.injEq]

theorem ntc_q2 : nearestTwoCells cfgW 807 617 = (⟨"alien_forest", 100⟩, ⟨"crystalline_plains", 100⟩) := by
  simp only [nearestTwoCells, warpW]
  rw [show cfgW.biomeCell = (20 : ℝ) from rfl]
  rw [show ⌊(807 : ℝ) / 20⌋ = (40 : ℤ) from by norm_num,
    show ⌊(617 : ℝ) / 20⌋ = (30 : ℤ) from by norm_num]
  simp only [neighborOffsets, List.map]
  rw [show (40 : ℤ) + -1 = 39 from by decide,
    show (40 : ℤ) + 0 = 40 from by decide,
    show (40 : ℤ) + 1 = 41 from by decide,
    show (30 : ℤ) + -1 = 29 from by decide,
    show (30 : ℤ) + 0 = 30 from by decide,
    show (30 : ℤ) + 1 = 31 from by decide]
  rw [
    fpW 39 29 (hash2D_eq_one_of _ _ (by decide)) (hash2D_eq_one_of _ _ (by decide)),
    fpW 40 29 (hash2D_eq_one_of _ _ (by decide)) (hash2D_eq_one_of _ _ (by decide)),
    fpW 41 29 (hash2D_eq_one_of _ _ (by decide)) (hash2D_eq_one_of _ _ (by decide)),
    fpW 39 30 (hash2D_eq_one_of _ _ (by decide)) (hash2D_eq_one_of _ _ (by decide)),
    fpW 40 30 (hash2D_eq_one_of _ _ (by decide)) (hash2D_eq_one_of _ _ (by decide)),
    fpW 41 30 (hash2D_eq_one_of _ _ (by decide)) (hash2D_eq_one_of _ _ (by decide)),
    fpW 39 31 (hash2D_eq_one_of _ _ (by decide)) (hash2D_eq_one_of _ _ (by decide)),
    fpW 40 31 (hash2D_eq_one_of _ _ (by decide)) (hash2D_eq_one_of _ _ (by decide)),
    fpW 41 31 (hash2D_eq_one_of _ _ (by decide)) (hash2D_eq_one_of _ _ (by decide)),
    pickW_39_29, pickW_40_29, pickW_41_29, pickW_39_30, pickW_40_30, pickW_41_30, pickW_39_31, pickW_40_31, pickW_41_31]
  norm_num [scanStep, Cand.mk.injEq, Prod.mk.injEq]

theorem gbw_q1 : getBiomeWeights cfgW 797 617 = some [(bAFW, 1), (bCPW, 0)] := by
  simp only [getBiomeWeights, ntc_q1, resolveBiome_AF, resolveBiome_CPW]
  rw [if_neg (show ¬(bAFW.id = bCPW.id) from by decide)]
  rw [Real.sqrt_zero,
    show Real.sqrt 400 = 20 from by
      rw [show (400 : ℝ) = 20 ^ 2 by norm_num,
        Real.sqrt_sq (by norm_num : (0 : ℝ) ≤ 20)],
    show cfgW.biomeCell = (20 : ℝ) from rfl,
    show cfgW.transitionBand = (0.18 : ℝ) from rfl]
  norm_num [clamp01, smooth01, max_def, min_def]

theorem gbw_q2 : getBiomeWeights cfgW 807 617 =
    some [(bAFW, 0.06), (bCPW, 0.94)] := by
  simp only [getBiomeWeights, ntc_q2, resolveBiome_AF, resolveBiome_CPW]
  rw [if_neg (show ¬(bAFW.id = bCPW.id) from by decide)]
  rw [show Real.sqrt 100 = 10 from by
      rw [show (100 : ℝ) = 10 ^ 2 by norm_num,
        Real.sqrt_sq (by norm_num : (0 : ℝ) ≤ 10)],
    show cfgW.biomeCell = (20 : ℝ) from rfl,
    show cfgW.transitionBand = (0.18 : ℝ) from rfl]
  norm_num [clamp01, smooth01, max_def, min_def]

theorem edge_q2 : edgeDist cfgW 807 617 = 0 := by
  simp only [edgeDist, ntc_q2]
  rw [show Real.sqrt 100 = 10 from by
      rw [show (100 : ℝ) = 10 ^ 2 by norm_num,
        Real.sqrt_sq (by norm_num : (0 : ℝ) ≤ 10)],
    show cfgW.biomeCell = (20 : ℝ) from rfl]
  norm_num [clamp01]

/-- Witness for C3: a concrete configuration and point where
`getBiomeWeights` succeeds (single-entry case) and the conclusion holds. -/
theorem C3_biome_weights_normalised_witness :
    getBiomeWeights cfgD 0 0 = some [(bFarD, 1)] ∧
    (([(bFarD, (1 : ℝ))].length = 1 ∨ [(bFarD, (1 : ℝ))].length = 2) ∧
      (∀ p ∈ [(bFarD, (1 : ℝ))], 0 ≤ p.2 ∧ p.2 ≤ 1) ∧
      ([(bFarD, (1 : ℝ))].map Prod.snd).sum = 1) := by
  have h := getBiomeWeights_single cfgD bFarD rfl rfl rfl 0 0
  exact ⟨h, C3_biome_weights_normalised cfgD 0 0 [(bFarD, 1)] h⟩

/-- **C7 counterexample input** — at (797, 617) under `cfgW` the query sits
exactly on the nearer feature point: the nearer cell's biome gets weight 1
and the *farther* cell's biome gets weight exactly 0, strictly below the
claimed ≈0.06 floor.  The 0.06 floor protects the nearer-cell weight, not
the farther one. -/
theorem C7_farther_weight_zero_counterexample :
    getBiomeWeights cfgW 797 617 = some [(bAFW, 1), (bCPW, 0)] ∧
    (0 : ℝ) < 0.06 :=
  ⟨gbw_q1, by norm_num⟩

/-- Witness for the amended C7 at the same concrete input: the nearer
cell's weight (1) honours the 0.06 floor and the farther cell's weight (0)
is nonnegative. -/
theorem C7_floor_is_on_nearer_cell_witness :
    getBiomeWeights cfgW 797 617 = some [(bAFW, 1), (bCPW, 0)] ∧
    (0.06 : ℝ) ≤ 1 ∧ (0 : ℝ) ≤ 0 :=
  ⟨gbw_q1, C7_floor_is_on_nearer_cell cfgW 797 617 bAFW bCPW 1 0 gbw_q1⟩

/-- Witness for C10 at (807, 617) under `cfgW`: the edge distance is 0 ≤
band 0.18, the two-entry weights are exactly (0.06, 0.94), and
`getBiomeAt` returns the second-nearest cell's biome. -/
theorem C10_border_dominant_is_second_nearest_witness :
    ((0 : ℝ) ≤ cfgW.transitionBand ∧ cfgW.transitionBand < 1 ∧
      getBiomeWeights cfgW 807 617 = some [(bAFW, 0.06), (bCPW, 0.94)] ∧
      edgeDist cfgW 807 617 ≤ cfgW.transitionBand) ∧
    ((0.06 : ℝ) = 0.06 ∧ (0.94 : ℝ) = 0.94 ∧
      getBiomeAt cfgW 807 617 = some bCPW) := by
  have hb0 : (0 : ℝ) ≤ cfgW.transitionBand := by
    rw [show cfgW.transitionBand = (0.18 : ℝ) from rfl]
    norm_num
  have hb1 : cfgW.transitionBand < 1 := by
    rw [show cfgW.transitionBand = (0.18 : ℝ) from rfl]
    norm_num
  have hedge : edgeDist cfgW 807 617 ≤ cfgW.transitionBand := by
    rw [edge_q2, show cfgW.transitionBand = (0.18 : ℝ) from rfl]
    norm_num
  exact ⟨⟨hb0, hb1, gbw_q2, hedge⟩,
    C10_border_dominant_is_second_nearest cfgW 807 617 bAFW bCPW 0.06 0.94
      hb0 hb1 gbw_q2 hedge⟩

end Oracle
